import Mathlib

/-!
# Verification of the flowchart converter (`FlowchartCreateTool`)

This file is a shallow embedding, in Lean 4, of the CFG-synthesis core of the
`AutoC_to_flowchart` repository: `FlowchartCreateTool/converter.py` together
with its managers (`node_manager.py`, `connection_manager.py`,
`context_manager.py`), the control-flow processors
(`control_flow/if_else_processor.py`, `control_flow/loop_processor.py`) and
`utils.py`.  Every definition below is a direct transliteration of the
corresponding Python function; names follow the source (leading underscores
dropped).

Modelling conventions:

* Python `float` coordinates are modelled by exact unnormalised fractions
  (`Q` below).  Every constant in the source is an integer or has one decimal
  digit, and every comparison evaluated in the concrete runs below is exact in
  both models, so float rounding never matters.
* Python dictionaries for flow nodes and connections become the structures
  `PNode` and `Conn`; the dict key `"type"` becomes the field `ntype`.
* Input statements (nested dicts) become the inductive `Stmt`.  The field
  `sid` is a tag modelling Python object identity (`id(statement)`), used as
  the key of `loop_condition_nodes` and of the bookkeeping map `extras`;
  Python's in-place mutations of statement dicts (`statement["_is_break"] =
  True`, `child["x"] = …`, …) are modelled by the state map `extras : sid →
  StmtExtra`.  Python `==` on statement dicts is structural; in every input
  considered in this file distinct statements have distinct content, so
  structural equality coincides with identity and we compare full structure
  (including `sid`).
* Python `for` loops become `for` loops in the `Id` monad; unbounded mutual
  recursion over the statement tree is modelled with an explicit fuel
  parameter (the fallback on fuel 0 is never reached for the fuel values used
  in the theorems, which exceed every recursion depth occurring there).
* `logger.*` and `print` calls are side-effect free and are omitted.
-/

set_option maxHeartbeats 4000000

/-! ## Exact fraction arithmetic (model of Python float)

Unnormalised fractions with positive denominator.  No `gcd` normalisation is
performed, which keeps every operation kernel-reducible. -/

structure Q where
  num : Int
  den : Int
deriving Repr, DecidableEq

def q (n : Int) : Q := ⟨n, 1⟩

/-- `a / 10` as an exact fraction: used for the one-decimal constants
`0.5, 0.4, …` of the source. -/
def qTenth (n : Int) : Q := ⟨n, 10⟩

def Q.add (a b : Q) : Q := ⟨a.num * b.den + b.num * a.den, a.den * b.den⟩

def Q.sub (a b : Q) : Q := ⟨a.num * b.den - b.num * a.den, a.den * b.den⟩

def Q.mul (a b : Q) : Q := ⟨a.num * b.num, a.den * b.den⟩

/-- Boolean `<` (denominators are positive by construction). -/
def Q.ltb (a b : Q) : Bool := a.num * b.den < b.num * a.den

def Q.leb (a b : Q) : Bool := a.num * b.den ≤ b.num * a.den

def Q.eqb (a b : Q) : Bool := a.num * b.den = b.num * a.den

def Q.absq (a : Q) : Q := ⟨if a.num < 0 then -a.num else a.num, a.den⟩

def Q.maxq (a b : Q) : Q := if Q.ltb a b then b else a

/-! ## Character-list string helpers (models of Python string operations) -/

/-- Is `p` a prefix of `s`? -/
def chStarts : List Char → List Char → Bool
  | [], _ => true
  | _ :: _, [] => false
  | p :: ps, c :: cs => p = c && chStarts ps cs

/-- Is `p` a contiguous sublist of `s`?  Model of Python `p in s`. -/
def chSub (p : List Char) : List Char → Bool
  | [] => chStarts p []
  | c :: cs => chStarts p (c :: cs) || chSub p cs

/-- Python `pat in s` for strings. -/
def strIn (pat s : String) : Bool := chSub pat.data s.data

/-- Python `s.endswith(pat)`. -/
def strEndsWith (pat s : String) : Bool := chStarts pat.data.reverse s.data.reverse

/-- Python `s.strip()` (the converter only ever strips ordinary spaces). -/
def strStrip (s : String) : String :=
  ⟨((s.data.dropWhile (fun c => c = ' ')).reverse.dropWhile (fun c => c = ' ')).reverse⟩

/-- Python `s.lower()` (ASCII; all non-ASCII characters are fixed points,
matching Python on the inputs used here). -/
def strLower (s : String) : String := ⟨s.data.map Char.toLower⟩

/-- Stable insertion used to model Python's stable `list.sort(key=…)`:
`x` goes after every already-placed element whose key is `≤` its own. -/
def insertByLt (lt : α → α → Bool) (x : α) : List α → List α
  | [] => [x]
  | y :: ys => if lt x y then x :: y :: ys else y :: insertByLt lt x ys

/-- Stable sort by a boolean `<`; model of Python `list.sort(key=…)`. -/
def sortByLt (lt : α → α → Bool) (xs : List α) : List α :=
  xs.foldl (fun acc x => insertByLt lt x acc) []

/-- Remove the first occurrence (model of Python `list.remove`). -/
def eraseFirst [BEq α] (xs : List α) (a : α) : List α :=
  match xs with
  | [] => []
  | x :: rest => if x == a then rest else x :: eraseFirst rest a

/-! ## Data model -/

/-- A flow-chart node: model of the node dicts built by
`NodeManager.create_node` (dict key `"type"` becomes `ntype`). -/
structure PNode where
  id : String
  ntype : String
  x : Q
  y : Q
  width : Q
  height : Q
  text : String
deriving Repr, DecidableEq

/-- A connection: model of the dicts built by
`ConnectionManager.add_connection`. -/
structure Conn where
  start_item_id : String
  start_point_type : String
  end_item_id : String
  end_point_type : String
  label : Option String
deriving Repr, DecidableEq

/-- An input statement (`StatementNode`): model of the nested input dicts.
`sid` models Python object identity; `ty` models the dict key `"type"`.
A key that may be absent is an `Option`. -/
inductive Stmt where
  | node (sid : Nat) (tag translated original_unit ty : Option String)
         (children : Option (List Stmt)) : Stmt
deriving Repr

def Stmt.sid : Stmt → Nat
  | .node s _ _ _ _ _ => s

def Stmt.tag : Stmt → Option String
  | .node _ t _ _ _ _ => t

def Stmt.translated : Stmt → Option String
  | .node _ _ t _ _ _ => t

def Stmt.original_unit : Stmt → Option String
  | .node _ _ _ o _ _ => o

def Stmt.ty : Stmt → Option String
  | .node _ _ _ _ t _ => t

def Stmt.children : Stmt → Option (List Stmt)
  | .node _ _ _ _ _ c => c

/-- Python `stmt.get("tag", "")`. -/
def Stmt.tagD (s : Stmt) : String := s.tag.getD ""

def Stmt.translatedD (s : Stmt) : String := s.translated.getD ""

def Stmt.origD (s : Stmt) : String := s.original_unit.getD ""

def Stmt.tyD (s : Stmt) : String := s.ty.getD ""

/-- Python `"children" in stmt` (for the inputs used here, the key is present
iff the list is). -/
def Stmt.hasChildren (s : Stmt) : Bool := s.children.isSome

/-- Python `stmt.get("children", [])` / `stmt["children"]`. -/
def Stmt.childrenD (s : Stmt) : List Stmt := s.children.getD []

mutual

/-- Structural equality of statements: model of Python `==` on the statement
dicts.  (`sid` is included; in every input below distinct statements have
distinct content, so this coincides with Python's content equality and with
object identity.) -/
def Stmt.beq : Stmt → Stmt → Bool
  | .node s1 t1 tr1 o1 ty1 c1, .node s2 t2 tr2 o2 ty2 c2 =>
    s1 == s2 && t1 == t2 && tr1 == tr2 && o1 == o2 && ty1 == ty2 &&
    (match c1, c2 with
     | none, none => true
     | some l1, some l2 => Stmt.beqList l1 l2
     | _, _ => false)

def Stmt.beqList : List Stmt → List Stmt → Bool
  | [], [] => true
  | a :: as1, b :: bs1 => Stmt.beq a b && Stmt.beqList as1 bs1
  | _, _ => false

end

instance : BEq Stmt := ⟨Stmt.beq⟩

/-- Python `==` on statement lists (`parent_block == input_json`, …). -/
def stmtListEq (a b : List Stmt) : Bool := Stmt.beqList a b

/-- Model of Python `==` on node dicts.  Node ids are unique per conversion
(proved below), and a node's other fields are a function of its creation
call, so comparing ids coincides with dict equality here. -/
def nodeEq (a b : PNode) : Bool := a.id == b.id

def optNodeEq (a b : Option PNode) : Bool :=
  match a, b with
  | none, none => true
  | some x, some y => nodeEq x y
  | _, _ => false

/-- `statement["_if_block_info"] = {"last_node": …, "has_return": …}`. -/
structure BlockInfo where
  last_node : Option PNode
  has_return : Bool
deriving Repr

/-- The bookkeeping keys the converter writes into input statement dicts.
A default value means "key absent". -/
structure StmtExtra where
  is_break : Bool := false
  break_node : Option PNode := none
  parent_loop_statement : Option Stmt := none
  is_continue : Bool := false
  continue_node : Option PNode := none
  context_type : Option String := none
  if_block_info : Option BlockInfo := none
  else_block_info : Option BlockInfo := none
  if_block_max_y : Option Q := none
  else_block_max_y : Option Q := none
  switch_case_last_nodes : Option (List PNode) := none
  x_coord : Option Q := none
deriving Repr

/-- An entry of `pending_if_else_reconnects`. -/
structure ReconnectInfo where
  if_last_node : Option PNode
  else_last_node : Option PNode
  if_has_return : Bool
  else_has_return : Bool
  condition_node : Option PNode
  parent_block : List Stmt
  if_statement_index : Int
  context_type : Option String
  loop_condition_node : Option PNode
  parent_statement : Option Stmt
deriving Repr

/-- An entry of `statement_context_stack` (a 5-tuple in the source; the
stack is in fact never pushed to, but the reading loop is embedded
faithfully). -/
structure CtxFrame where
  statement : Option Stmt
  parent_block : Option (List Stmt)
  block_index : Int
  context_type : Option String
  next_node : Option PNode
deriving Repr

/-- The combined mutable state of `FlowchartConverter` and its three
managers during one conversion. -/
structure ConvState where
  nodes : List PNode := []
  node_counter : Nat := 0
  start_node : Option PNode := none
  end_node : Option PNode := none
  last_node : Option PNode := none
  connections : List Conn := []
  statement_context_stack : List CtxFrame := []
  pending_if_else_reconnects : List ReconnectInfo := []
  statement_first_nodes : List (Nat × PNode) := []
  loop_condition_nodes : List (Nat × PNode) := []
  input_json : List Stmt := []
  extras : List (Nat × StmtExtra) := []
  processed_if_else : List (String × String) := []
  current_x : Q := q (-4600)
  current_y : Q := q (-4800)
  current_block : Option (List Stmt) := none
deriving Repr

/-- Dictionary lookup with "last write wins" (entries are prepended). -/
def assocGet (m : List (Nat × α)) (k : Nat) : Option α :=
  match m with
  | [] => none
  | (k1, v) :: rest => if k1 = k then some v else assocGet rest k

def assocSet (m : List (Nat × α)) (k : Nat) (v : α) : List (Nat × α) :=
  (k, v) :: m

/-- The bookkeeping record of a statement (empty record if none written). -/
def getExtra (st : ConvState) (s : Stmt) : StmtExtra :=
  (assocGet st.extras s.sid).getD {}

def setExtra (st : ConvState) (s : Stmt) (e : StmtExtra) : ConvState :=
  { st with extras := assocSet st.extras s.sid e }

/-! ## Converter layout constants (`FlowchartConverter.__init__`) -/

def base_x : Q := q (-4600)

def base_y : Q := q (-4800)

def level_height : Q := q 125

def condition_offset_x : Q := q 200

def condition_offset_y : Q := q 150

def loop_offset_x : Q := q 120

def loop_offset_y : Q := q 120

/-! ## `NodeManager` -/

/-- The fixed id templates (`self.ids`); `get` with the `"process"` default. -/
def managerIds (node_type : String) : String :=
  if node_type = "input" then "bc58d5a1-d969-469f-9ee2-c8719b4ffd4b"
  else if node_type = "decision" then "3991cbcd-8ad1-4d60-8a36-a224e101a382"
  else if node_type = "start" then "e696f412-6290-4c08-86b0-2b4f2cf13745"
  else if node_type = "end" then "f7a7g8h9-i0j1-k2l3-m4n5-o6p7q8r9s0t1"
  else if node_type = "process" then "3658832b-0dcd-429a-b244-698063b79e2d"
  else "3658832b-0dcd-429a-b244-698063b79e2d"

/-- `NodeManager.get_unique_id`. -/
def get_unique_id (st : ConvState) (node_type : String) : String × ConvState :=
  let base_id := managerIds node_type
  if st.node_counter = 0 then
    (base_id, { st with node_counter := st.node_counter + 1 })
  else
    (base_id ++ "_" ++ Nat.repr st.node_counter,
      { st with node_counter := st.node_counter + 1 })

/-- `NodeManager.create_node`. -/
def create_node (st : ConvState) (node_type text : String) (x y : Q) :
    PNode × ConvState := Id.run do
  let (node_id, st) := get_unique_id st node_type
  match st.nodes.find? (fun n => n.id == node_id) with
  | some existing =>
      -- if a node with this id exists, update its attributes in place
      let updated := { existing with text := text, x := x, y := y }
      let nodes := st.nodes.map (fun n => if n.id == node_id then updated else n)
      return (updated, { st with nodes := nodes })
  | none =>
      let node : PNode :=
        { id := node_id, ntype := node_type, x := x, y := y,
          width := q 125, height := q 75, text := text }
      return (node, { st with nodes := st.nodes ++ [node] })

/-- `NodeManager.get_node_by_id`. -/
def get_node_by_id (st : ConvState) (node_id : String) : Option PNode :=
  st.nodes.find? (fun n => n.id == node_id)

/-- `NodeManager.remove_duplicate_end_nodes`. -/
def remove_duplicate_end_nodes (st : ConvState) : List String × ConvState :=
  match st.end_node with
  | some endN =>
      let end_nodes := st.nodes.filter
        (fun n => n.ntype == "start" && n.text == "结束" && !(nodeEq n endN))
      let nodes := st.nodes.filter (fun n => !(end_nodes.any (fun e => nodeEq e n)))
      (end_nodes.map (·.id), { st with nodes := nodes })
  | none => ([], st)

/-! ## `ConnectionManager` -/

/-- `ConnectionManager.add_connection`. -/
def add_connection (st : ConvState)
    (start_node_id start_point_type end_node_id end_point_type : String)
    (label : Option String := none) : ConvState := Id.run do
  -- safety check 1: no self connections
  if start_node_id == end_node_id then
    return st
  -- the end node must not have outgoing connections
  let start_node := get_node_by_id st start_node_id
  match start_node with
  | some sn =>
      if sn.ntype == "start" && sn.text == "结束" then
        return st
  | none => pure ()
  -- skip if the identical connection already exists
  if st.connections.any (fun c =>
      c.start_item_id == start_node_id && c.start_point_type == start_point_type &&
      c.end_item_id == end_node_id && c.end_point_type == end_point_type) then
    return st
  -- default label for decision nodes
  let label :=
    match label with
    | some l => some l
    | none =>
        match start_node with
        | some sn =>
            if sn.ntype == "decision" then
              if start_point_type == "down" then some "否"
              else if start_point_type == "right" || start_point_type == "left" then some "是"
              else none
            else none
        | none => none
  let conn : Conn :=
    { start_item_id := start_node_id, start_point_type := start_point_type,
      end_item_id := end_node_id, end_point_type := end_point_type, label := label }
  return { st with connections := st.connections ++ [conn] }

/-- `ConnectionManager.connection_exists`. -/
def connection_exists (st : ConvState) (start_node_id end_node_id : String) : Bool :=
  st.connections.any (fun c =>
    c.start_item_id == start_node_id && c.end_item_id == end_node_id)

/-- `ConnectionManager.get_connections_from_node`. -/
def get_connections_from_node (st : ConvState) (node_id : String) : List Conn :=
  st.connections.filter (fun c => c.start_item_id == node_id)

/-- `ConnectionManager.get_connections_to_node`. -/
def get_connections_to_node (st : ConvState) (node_id : String) : List Conn :=
  st.connections.filter (fun c => c.end_item_id == node_id)

/-- `ConnectionManager.remove_connections_with_nodes`. -/
def remove_connections_with_nodes (st : ConvState) (node_ids : List String) : ConvState :=
  { st with connections := st.connections.filter (fun c =>
      !(node_ids.contains c.start_item_id) && !(node_ids.contains c.end_item_id)) }

/-! ## `ContextManager` -/

def register_statement_first_node (st : ConvState) (statement_index : Nat) (node : PNode) :
    ConvState :=
  { st with statement_first_nodes := assocSet st.statement_first_nodes statement_index node }

def get_statement_first_node (st : ConvState) (statement_index : Nat) : Option PNode :=
  assocGet st.statement_first_nodes statement_index

def register_loop_condition_node (st : ConvState) (loop_statement : Stmt)
    (condition_node : PNode) : ConvState :=
  { st with loop_condition_nodes :=
      assocSet st.loop_condition_nodes loop_statement.sid condition_node }

def get_loop_condition_node (st : ConvState) (loop_statement : Stmt) : Option PNode :=
  assocGet st.loop_condition_nodes loop_statement.sid

def add_pending_reconnect (st : ConvState) (info : ReconnectInfo) : ConvState :=
  { st with pending_if_else_reconnects := st.pending_if_else_reconnects ++ [info] }

/-! ## `utils.py` -/

/-- `utils.count_statement_chain` (fueled; the depth of every input below is
far below the fuel used). -/
def count_statement_chain (fuel : Nat) (node : Stmt) : Nat :=
  match fuel with
  | 0 => 0
  | f + 1 => Id.run do
    let current_length := if node.tagD ≠ "block" then 1 else 0
    if node.hasChildren && !node.childrenD.isEmpty then
      let mut local_max := 0
      for child in node.childrenD do
        let child_max := count_statement_chain f child
        local_max := max local_max (current_length + child_max)
      return local_max
    else
      return current_length

mutual

/-- `utils.is_statement_in_loop`. -/
def is_statement_in_loop (fuel : Nat) (statement loop_item : Stmt) : Bool :=
  match fuel with
  | 0 => false
  | f + 1 => Id.run do
    if loop_item.hasChildren then
      for child in loop_item.childrenD do
        if child.tyD == "for_block" || child.tyD == "while_block" ||
            child.tyD == "while_true_block" then
          if child.hasChildren then
            if is_statement_in_block f statement child.childrenD then
              return true
        else
          if is_statement_in_loop f statement child then
            return true
    return false

/-- `utils.is_statement_in_block`. -/
def is_statement_in_block (fuel : Nat) (statement : Stmt) (block : List Stmt) : Bool :=
  match fuel with
  | 0 => false
  | f + 1 => Id.run do
    for item in block do
      if item == statement then
        return true
      if item.hasChildren then
        for child in item.childrenD do
          if child.tyD == "if_block" || child.tyD == "else_block" then
            if child.hasChildren then
              if is_statement_in_block f statement child.childrenD then
                return true
          else
            if is_statement_in_block f statement [child] then
              return true
    return false

end

/-- `utils.find_all_nested_if_else` (returns the collected list instead of
mutating an accumulator). -/
def find_all_nested_if_else (fuel : Nat) (st : ConvState) (statement : Stmt) :
    List Stmt :=
  match fuel with
  | 0 => []
  | f + 1 => Id.run do
    let mut result : List Stmt := []
    if statement.tagD == "condition" || statement.tagD == "branch" then
      let e := getExtra st statement
      if e.if_block_info.isSome || e.else_block_info.isSome then
        result := result ++ [statement]
    if statement.hasChildren then
      for child in statement.childrenD do
        if child.tyD == "if_block" || child.tyD == "else_block" then
          if child.hasChildren then
            for grandchild in child.childrenD do
              result := result ++ find_all_nested_if_else f st grandchild
        else
          result := result ++ find_all_nested_if_else f st child
    return result

/-- `utils.find_parent_block`. -/
def find_parent_block (fuel : Nat) (stmt : Stmt) (current_block : List Stmt) :
    Option (List Stmt) × Int :=
  match fuel with
  | 0 => (none, -1)
  | f + 1 => Id.run do
    for pr in current_block.enum do
      let idx := pr.1
      let child := pr.2
      if child == stmt then
        return (some current_block, Int.ofNat idx)
      if child.hasChildren then
        for gc in child.childrenD do
          if gc.tyD == "if_block" || gc.tyD == "else_block" then
            if gc.hasChildren then
              let found := find_parent_block f stmt gc.childrenD
              if found.1.isSome then
                return found
    return (none, -1)

/-! ## Small shared helpers for Python idioms -/

/-- Python list indexing guarded by `0 <= i < len` (callers check bounds). -/
def listGetI (xs : List α) (i : Int) : Option α :=
  if i < 0 then none else xs.get? i.toNat

/-- `range(a, b)` over integers. -/
def intRange (a b : Int) : List Int :=
  (List.range (b - a).toNat).map (fun k => a + Int.ofNat k)

/-- The idiom, repeated verbatim in the source, that skips the `else`
("否则") statements that textually follow an `if` statement:
`skip_count = 1; while parent_block[idx+skip] is an 否则-branch: skip += 1`.
Returns `skip_count`. -/
def skipElseCount (parent_block : List Stmt) (if_statement_index : Int) : Int := Id.run do
  let mut skip_count : Int := 1
  let mut current_idx : Int := if_statement_index + 1
  for _ in List.range parent_block.length do
    if current_idx < Int.ofNat parent_block.length then
      match listGetI parent_block current_idx with
      | some next_stmt =>
          if next_stmt.tagD == "branch" && strIn "否则" next_stmt.translatedD then
            skip_count := skip_count + 1
            current_idx := current_idx + 1
          else
            break
      | none => break
    else
      break
  return skip_count

/-! ## `LoopProcessor` (`control_flow/loop_processor.py`) -/

/-- `LoopProcessor._has_inner_conditional`. -/
def has_inner_conditional (loop_item : Stmt) : Bool := Id.run do
  if loop_item.hasChildren then
    for child in loop_item.childrenD do
      if child.hasChildren then
        for grandchild in child.childrenD do
          let original_unit := strLower grandchild.origD
          let tag := grandchild.tagD
          let type_ := grandchild.tyD
          if strIn "if" original_unit || strIn "while" original_unit ||
              tag == "condition" || tag == "branch" || tag == "loop" ||
              type_ == "if_block" || type_ == "while_block" ||
              type_ == "while_true_block" then
            return true
  return false

/-- `LoopProcessor.calculate_loop_offset`. -/
def calculate_loop_offset (fuel : Nat) (loop_item : Stmt) (base_offset : Q)
    (is_while : Bool) : Q := Id.run do
  let mut max_statement_chain := 0
  if loop_item.hasChildren then
    for child in loop_item.childrenD do
      let loop_body_type := if is_while then "while_true_block" else "for_block"
      if child.tyD == loop_body_type || child.tyD == "while_block" ||
          child.tyD == "for_true_block" then
        if child.hasChildren then
          for grandchild in child.childrenD do
            if grandchild.tagD ≠ "block" then
              let chain_length := count_statement_chain fuel grandchild
              if chain_length > max_statement_chain then
                max_statement_chain := chain_length
  let inner := has_inner_conditional loop_item
  return if inner then Q.mul base_offset (q 2) else base_offset

/-- `LoopProcessor._add_fallback_if_reconnection`.  (`if_node` is never
assigned in the source, so the guarded `add_connection` is dead code; the
structure is kept.) -/
def add_fallback_if_reconnection (st : ConvState) (child : Stmt) : ConvState := Id.run do
  if child.hasChildren then
    let last_child := child.childrenD.getLast?
    match last_child with
    | some lc =>
        if lc.tyD == "if_block" then
          let mut has_else := false
          let if_node : Option PNode := none
          for block_child in lc.childrenD do
            if block_child.tyD == "else_block" then
              has_else := true
          if has_else && if_node.isSome then
            -- unreachable: `if_node` is never set in the source
            return st
    | none => pure ()
  return st

/-- `LoopProcessor.add_loop_body_reconnection`. -/
def add_loop_body_reconnection (st : ConvState) (body_current : Option PNode)
    (loop_condition_node : PNode) (body_return : Bool) (child : Stmt)
    (if_block_last_node : Option PNode) : ConvState := Id.run do
  match body_current with
  | some bc =>
      if !body_return then
        let mut st := add_connection st bc.id "right" loop_condition_node.id "up"
        match if_block_last_node with
        | some ibl =>
            if !(nodeEq ibl bc) then
              st := add_connection st ibl.id "left" loop_condition_node.id "up"
            else
              st := add_fallback_if_reconnection st child
        | none =>
            st := add_fallback_if_reconnection st child
        return st
      else
        return st
  | none => return st

/-- `LoopProcessor.check_next_statements_for_conditional`. -/
def check_next_statements_for_conditional (input_json : List Stmt)
    (loop_index : Nat) (statement_count : Nat) : Bool := Id.run do
  if statement_count = 0 then
    return false
  let mut check_count := 0
  for next_idx in intRange (Int.ofNat loop_index + 1) (Int.ofNat input_json.length) do
    match listGetI input_json next_idx with
    | some next_item =>
        if next_item.tagD ≠ "block" then
          let original_unit := strLower next_item.origD
          let tag := next_item.tagD
          if strIn "if" original_unit || strIn "while" original_unit ||
              tag == "condition" || tag == "branch" || tag == "loop" then
            return true
          check_count := check_count + 1
          if check_count ≥ statement_count then
            break
    | none => pure ()
  return false

/-! ## `IfElseProcessor` (`control_flow/if_else_processor.py`) -/

/-- `IfElseProcessor._find_node_by_statement`. -/
def find_node_by_statement (st : ConvState) (statement : Stmt)
    (exclude_node : Option PNode) : Option PNode := Id.run do
  let stmt_text := statement.translatedD
  if stmt_text == "" then
    return none
  for node in st.nodes do
    match exclude_node with
    | some ex =>
        if node.id == ex.id then
          continue
    | none => pure ()
    if node.text == stmt_text then
      return some node
  return none

/-- `IfElseProcessor._find_reconnect_target`.  Returns
`some (target, start_point, end_point)` or `none` (the source's
`(None, None, None)`). -/
def find_reconnect_target (st : ConvState) (parent_block : List Stmt)
    (if_statement_index : Int) (next_statement_first_node : Option PNode)
    (loop_condition_node : Option PNode) (condition_node : Option PNode)
    (context_stack : List CtxFrame) (else_last_node : Option PNode)
    (current_context_type : Option String) :
    Option (PNode × String × String) := Id.run do
  -- 1. statements following the if-else at this level
  if if_statement_index ≥ 0 then
    let skip_count := skipElseCount parent_block if_statement_index
    for i in intRange (if_statement_index + skip_count) (Int.ofNat parent_block.length) do
      match listGetI parent_block i with
      | some next_stmt =>
          if next_stmt.tagD ≠ "block" then
            let mut target_node : Option PNode := none
            let mut continue_search := false
            match next_statement_first_node with
            | some nsfn =>
                match else_last_node with
                | some eln =>
                    if nsfn.id == eln.id then
                      continue_search := true
                    else
                      target_node := some nsfn
                | none => target_node := some nsfn
            | none =>
                if stmtListEq parent_block st.input_json then
                  match get_statement_first_node st i.toNat with
                  | some candidate_node =>
                      match else_last_node with
                      | some eln =>
                          if candidate_node.id == eln.id then
                            continue_search := true
                          else
                            target_node := some candidate_node
                      | none => target_node := some candidate_node
                  | none => pure ()
                else
                  target_node := find_node_by_statement st next_stmt else_last_node
            if continue_search then
              continue
            match target_node with
            | some t => return some (t, "down", "up")
            | none => pure ()
      | none => pure ()
  -- 2. inside a loop but an outer following statement exists
  if current_context_type == some "loop" then
    match next_statement_first_node with
    | some nsfn =>
        match loop_condition_node with
        | some lcn =>
            if nsfn.id ≠ lcn.id then
              return some (nsfn, "down", "up")
        | none => pure ()
    | none => pure ()
  let should_check_loop_later :=
    current_context_type == some "loop" && loop_condition_node.isSome
  -- 3. walk the context stack upwards
  for frame in context_stack.reverse do
    let ctx_statement := frame.statement
    let ctx_parent_block := frame.parent_block
    let ctx_block_index := frame.block_index
    let ctx_context_type := frame.context_type
    let ctx_next_node := frame.next_node
    let ctx_tag := (ctx_statement.map Stmt.tagD).getD ""
    let ctx_original := strLower ((ctx_statement.map Stmt.origD).getD "")
    let ctx_type := (ctx_statement.map Stmt.tyD).getD ""
    if ctx_context_type == some "loop" ||
        (ctx_statement.isSome &&
          (strIn "for" ctx_original || strIn "while" ctx_original ||
           ctx_tag == "loop" || ctx_type == "for_block" ||
           ctx_type == "while_block" || ctx_type == "while_true_block")) then
      -- a loop frame: keep searching upwards (the loop node is only the
      -- last resort, step 6)
      continue
    else if ctx_context_type == some "if_block" || ctx_context_type == some "else_block" ||
        (ctx_statement.isSome &&
          (ctx_tag == "condition" || ctx_tag == "branch" ||
           ctx_type == "if_block" || ctx_type == "else_block")) then
      match ctx_parent_block with
      | some cpb =>
          if ctx_block_index ≥ 0 then
            let skip_count := skipElseCount cpb ctx_block_index
            for next_idx in intRange (ctx_block_index + skip_count) (Int.ofNat cpb.length) do
              match listGetI cpb next_idx with
              | some next_stmt =>
                  if next_stmt.tagD ≠ "block" then
                    let mut target_node : Option PNode := none
                    let mut continue_search := false
                    match ctx_next_node with
                    | some cnn =>
                        match else_last_node with
                        | some eln =>
                            if cnn.id == eln.id then
                              continue_search := true
                            else
                              target_node := some cnn
                        | none => target_node := some cnn
                    | none =>
                        match next_statement_first_node with
                        | some nsfn =>
                            match else_last_node with
                            | some eln =>
                                if nsfn.id == eln.id then
                                  continue_search := true
                                else
                                  target_node := some nsfn
                            | none => target_node := some nsfn
                        | none =>
                            if stmtListEq cpb st.input_json then
                              match get_statement_first_node st next_idx.toNat with
                              | some candidate_node =>
                                  match else_last_node with
                                  | some eln =>
                                      if candidate_node.id == eln.id then
                                        continue_search := true
                                      else
                                        target_node := some candidate_node
                                  | none => target_node := some candidate_node
                              | none => pure ()
                    if continue_search then
                      continue
                    match target_node with
                    | some t => return some (t, "down", "up")
                    | none => pure ()
              | none => pure ()
            continue
      | none => pure ()
    else if ctx_statement.isNone || ctx_context_type == some "main" then
      match ctx_parent_block with
      | some cpb =>
          if ctx_block_index ≥ 0 then
            let skip_count := skipElseCount cpb ctx_block_index
            for next_idx in intRange (ctx_block_index + skip_count) (Int.ofNat cpb.length) do
              match listGetI cpb next_idx with
              | some next_stmt =>
                  if next_stmt.tagD ≠ "block" then
                    let mut target_node : Option PNode := none
                    let mut continue_search := false
                    match ctx_next_node with
                    | some cnn => target_node := some cnn
                    | none =>
                        match next_statement_first_node with
                        | some nsfn =>
                            match else_last_node with
                            | some eln =>
                                if nsfn.id == eln.id then
                                  continue_search := true
                                else
                                  target_node := some nsfn
                            | none => target_node := some nsfn
                        | none =>
                            if stmtListEq cpb st.input_json then
                              match get_statement_first_node st next_idx.toNat with
                              | some candidate_node => target_node := some candidate_node
                              | none => pure ()
                    if continue_search then
                      continue
                    match target_node with
                    | some t => return some (t, "down", "up")
                    | none => pure ()
              | none => pure ()
            return none
      | none => pure ()
  -- 4. context 'main' and no loop: heuristic search below the branch
  if current_context_type == some "main" && loop_condition_node.isNone then
    match condition_node with
    | some cond =>
        let cond_y := cond.y
        let target_y :=
          match else_last_node with
          | some eln => eln.y
          | none => cond_y
        -- intermediate (pass-through) nodes
        let mut intermediate_nodes : List String := []
        for n in st.nodes do
          for conn in st.connections do
            if conn.start_item_id == n.id && conn.start_point_type == "down" then
              match get_node_by_id st conn.end_item_id with
              | some tn =>
                  if Q.leb n.y tn.y then
                    intermediate_nodes := intermediate_nodes ++ [n.id]
                    break
              | none => pure ()
        let mut closest_node : Option PNode := none
        let mut min_distance : Option Q := none
        for node in st.nodes do
          let node_y := node.y
          let node_x := node.x
          if Q.ltb target_y node_y then
            let is_excluded :=
              (match else_last_node with
               | some eln => node.id == eln.id
               | none => false) || node.text == "结束"
            if !is_excluded then
              let distance := Q.sub node_y target_y
              if intermediate_nodes.contains node.id && Q.ltb distance (q 200) then
                continue
              let is_main_flow := Q.ltb (Q.absq (Q.sub node_x base_x)) (q 50)
              let is_decision := node.ntype == "decision"
              let mut score := distance
              if is_main_flow then
                score := Q.mul score (qTenth 5)
              if is_decision && Q.ltb (q 150) distance && Q.ltb distance (q 250) then
                score := Q.mul score (qTenth 3)
              let better :=
                match min_distance with
                | none => true
                | some md => Q.ltb score md
              if better then
                min_distance := some score
                closest_node := some node
        match closest_node with
        | some cn => return some (cn, "down", "up")
        | none => pure ()
    | none => pure ()
  -- 5. top level: statements after the first branch
  if stmtListEq parent_block st.input_json && if_statement_index ≥ 0 then
    let skip_count := skipElseCount parent_block if_statement_index
    for i in intRange (if_statement_index + skip_count) (Int.ofNat parent_block.length) do
      match listGetI parent_block i with
      | some next_stmt =>
          if next_stmt.tagD ≠ "block" then
            match get_statement_first_node st i.toNat with
            | some candidate_node =>
                let is_else_last :=
                  match else_last_node with
                  | some eln => candidate_node.id == eln.id
                  | none => false
                if is_else_last then
                  continue
                return some (candidate_node, "down", "up")
            | none => pure ()
      | none => pure ()
  -- 6. last resort: reconnect to the enclosing loop
  if should_check_loop_later then
    match loop_condition_node with
    | some lcn => return some (lcn, "right", "up")
    | none => pure ()
  -- 7. nothing found
  return none

/-- `IfElseProcessor.handle_if_else_reconnect`. -/
def handle_if_else_reconnect (st : ConvState) (if_last_node else_last_node : Option PNode)
    (if_has_return else_has_return : Bool) (condition_node : Option PNode)
    (parent_block : List Stmt) (if_statement_index : Int)
    (next_statement_first_node : Option PNode) (loop_condition_node : Option PNode)
    (context_stack : List CtxFrame) (current_context_type : Option String) :
    ConvState := Id.run do
  let if_id := match if_last_node with | some n => n.id | none => "None"
  let else_id := match else_last_node with | some n => n.id | none => "None"
  let reconnect_key := (if_id, else_id)
  if st.processed_if_else.contains reconnect_key then
    return st
  let mut st := { st with processed_if_else := st.processed_if_else ++ [reconnect_key] }
  -- 1. if-branch reconnection
  if !if_has_return then
    match if_last_node with
    | some iln =>
        match find_reconnect_target st parent_block if_statement_index
            next_statement_first_node loop_condition_node condition_node
            context_stack else_last_node current_context_type with
        | some (target_node, start_point, end_point) =>
            let if_y := iln.y
            let target_y := target_node.y
            if start_point == "down" && Q.ltb target_y if_y then
              pure () -- skip a downward edge whose target lies above
            else
              let existing := st.connections.any (fun c =>
                c.start_item_id == iln.id && c.start_point_type == start_point &&
                c.end_item_id == target_node.id && c.end_point_type == end_point)
              if !existing then
                st := add_connection st iln.id start_point target_node.id end_point
        | none => pure ()
    | none => pure ()
  -- 2. else-branch reconnection
  match else_last_node with
  | some eln =>
      if !else_has_return then
        match find_reconnect_target st parent_block if_statement_index
            next_statement_first_node loop_condition_node condition_node
            context_stack else_last_node current_context_type with
        | some (target_node, start_point, end_point) =>
            let else_y := eln.y
            let target_y := target_node.y
            if start_point == "down" && Q.ltb target_y else_y then
              pure ()
            else
              let existing := st.connections.any (fun c =>
                c.start_item_id == eln.id && c.start_point_type == start_point &&
                c.end_item_id == target_node.id && c.end_point_type == end_point)
              if !existing then
                st := add_connection st eln.id start_point target_node.id end_point
        | none => pure ()
  | none => pure ()
  return st

/-! ## Converter helpers (`converter.py`, non-recursive parts) -/

/-- `FlowchartConverter._is_loop_structure`. -/
def is_loop_structure (item : Stmt) : Bool :=
  (strIn "for" item.origD || strIn "while" (strLower item.origD)) &&
  (item.tagD == "condition" || item.tagD == "loop")

/-- `FlowchartConverter._calculate_while_statement_chain`. -/
def calculate_while_statement_chain (fuel : Nat) (item : Stmt) : Nat := Id.run do
  let mut max_statement_chain := 0
  if item.hasChildren then
    for child in item.childrenD do
      if child.tyD == "while_true_block" || child.tyD == "while_block" ||
          child.tyD == "body" then
        if child.hasChildren then
          for grandchild in child.childrenD do
            if grandchild.tagD ≠ "block" then
              let chain_length := count_statement_chain fuel grandchild
              if chain_length > max_statement_chain then
                max_statement_chain := chain_length
  return max_statement_chain

/-- `FlowchartConverter._find_loop_condition_node`. -/
def find_loop_condition_node (st : ConvState) (index : Nat)
    (input_json : List Stmt) (context_type : String) : Option PNode := Id.run do
  let mut loop_condition_node : Option PNode := none
  if context_type == "loop" then
    for prev_idx in (intRange 0 (Int.ofNat index)).reverse do
      match listGetI input_json prev_idx with
      | some prev_item =>
          let prev_tag := prev_item.tagD
          let prev_orig := strLower prev_item.origD
          if strIn "for" prev_orig || strIn "while" prev_orig ||
              prev_tag == "loop" || prev_tag == "condition" then
            loop_condition_node := get_loop_condition_node st prev_item
            if loop_condition_node.isNone then
              loop_condition_node := get_statement_first_node st prev_idx.toNat
            break
      | none => pure ()
  return loop_condition_node

/-- `FlowchartConverter._save_if_else_reconnect_info`. -/
def save_if_else_reconnect_info (st : ConvState) (item : Stmt)
    (stmt_current : Option PNode) (index : Nat) (input_json : List Stmt) :
    ConvState :=
  let e := getExtra st item
  let if_block_info := e.if_block_info
  let else_block_info := e.else_block_info
  if if_block_info.isSome || else_block_info.isSome then
    let context_type := match e.context_type with | some s => s | none => "main"
    let loop_condition_node := find_loop_condition_node st index input_json context_type
    let if_last : Option PNode := match if_block_info with | some i => i.last_node | none => none
    let else_last : Option PNode := match else_block_info with | some i => i.last_node | none => none
    let if_has : Bool := match if_block_info with | some i => i.has_return | none => false
    let else_has : Bool := match else_block_info with | some i => i.has_return | none => false
    add_pending_reconnect st
      { if_last_node := if_last
        else_last_node := else_last
        if_has_return := if_has
        else_has_return := else_has
        condition_node := stmt_current
        parent_block := input_json
        if_statement_index := Int.ofNat index
        context_type := some context_type
        loop_condition_node := loop_condition_node
        parent_statement := none }
  else st

/-- `FlowchartConverter._create_end_node`. -/
def create_end_node (st : ConvState) (current_node : PNode) (max_y : Q) :
    ConvState := Id.run do
  let mut st := st
  if st.end_node.isNone then
    let (endN, st1) := create_node st "end" "结束"
      st.current_x (Q.add (Q.add max_y level_height) (q 100))
    st := { st1 with end_node := some endN }
    if !(nodeEq current_node endN) then
      if !(connection_exists st current_node.id endN.id) then
        st := add_connection st current_node.id "down" endN.id "up"
  let (removed_node_ids, st2) := remove_duplicate_end_nodes st
  st := st2
  if !removed_node_ids.isEmpty then
    st := remove_connections_with_nodes st removed_node_ids
  return st

/-- `FlowchartConverter._calculate_skip_count`. -/
def calculate_skip_count (parent_block : List Stmt) (if_statement_idx : Int) : Int :=
  match listGetI parent_block if_statement_idx with
  | some current_item =>
      if current_item.tagD == "condition" || current_item.tagD == "branch" then
        skipElseCount parent_block if_statement_idx
      else 0
  | none => 0

/-- `FlowchartConverter._is_part_of_if_else`. -/
def is_part_of_if_else (next_item original_statement : Stmt) : Bool := Id.run do
  if !original_statement.hasChildren then
    return false
  for child in original_statement.childrenD do
    if child == next_item then
      return true
    if child.tagD == "branch" && strIn "否则" child.translatedD then
      if child.hasChildren then
        for block_child in child.childrenD do
          if block_child.tyD == "else_block" then
            if block_child.hasChildren then
              for gc in block_child.childrenD do
                if gc == next_item then
                  return true
  return false

/-- `FlowchartConverter._find_next_statement_node`. -/
def find_next_statement_node (st : ConvState) (info : ReconnectInfo)
    (input_json : List Stmt) : Option PNode := Id.run do
  let if_statement_idx := info.if_statement_index
  let parent_block := info.parent_block
  let else_last_node : Option PNode :=
    match listGetI parent_block if_statement_idx with
    | some original_statement =>
        match (getExtra st original_statement).else_block_info with
        | some ebi => ebi.last_node
        | none => none
    | none => none
  let skip_count := calculate_skip_count parent_block if_statement_idx
  for next_idx in intRange (if_statement_idx + skip_count) (Int.ofNat parent_block.length) do
    match listGetI parent_block next_idx with
    | some next_item =>
        if next_item.tagD ≠ "block" then
          if stmtListEq parent_block input_json then
            match get_statement_first_node st next_idx.toNat with
            | some candidate_node =>
                let is_else_last :=
                  match else_last_node with
                  | some eln => candidate_node.id == eln.id
                  | none => false
                if is_else_last then
                  continue
                let current_original_stmt := listGetI parent_block if_statement_idx
                match current_original_stmt with
                | some cos =>
                    if !(is_part_of_if_else next_item cos) then
                      return some candidate_node
                | none => return some candidate_node
            | none => pure ()
          return none
    | none => pure ()
  return none

/-- `FlowchartConverter._find_loop_in_parent_block`. -/
def find_loop_in_parent_block (st : ConvState) (parent_block input_json : List Stmt) :
    Option PNode := Id.run do
  for pr in input_json.enum do
    let loop_idx := pr.1
    let loop_item := pr.2
    let loop_tag := loop_item.tagD
    let loop_orig := strLower loop_item.origD
    if strIn "for" loop_orig || strIn "while" loop_orig ||
        loop_tag == "loop" || loop_tag == "condition" then
      if loop_item.hasChildren then
        for child in loop_item.childrenD do
          if child.tyD == "for_block" || child.tyD == "while_block" ||
              child.tyD == "while_true_block" then
            if child.hasChildren then
              if stmtListEq parent_block child.childrenD then
                let mut loop_condition_node := get_loop_condition_node st loop_item
                if loop_condition_node.isNone then
                  loop_condition_node := get_statement_first_node st loop_idx
                return loop_condition_node
  return none

/-- `FlowchartConverter._find_loop_before_statement`. -/
def find_loop_before_statement (st : ConvState) (parent_block : List Stmt)
    (if_statement_idx : Int) (input_json : List Stmt) : Option PNode := Id.run do
  for prev_idx in (intRange 0 if_statement_idx).reverse do
    match listGetI parent_block prev_idx with
    | some prev_item =>
        let prev_tag := prev_item.tagD
        let prev_orig := strLower prev_item.origD
        if strIn "for" prev_orig || strIn "while" prev_orig || prev_tag == "loop" then
          let mut loop_condition_node := get_loop_condition_node st prev_item
          if loop_condition_node.isNone then
            if stmtListEq parent_block input_json then
              loop_condition_node := get_statement_first_node st prev_idx.toNat
          return loop_condition_node
    | none => pure ()
  return none

/-- `FlowchartConverter._get_loop_condition_node_for_reconnect`. -/
def get_loop_condition_node_for_reconnect (st : ConvState) (info : ReconnectInfo)
    (input_json : List Stmt) : Option PNode := Id.run do
  let mut loop_condition_node := info.loop_condition_node
  if loop_condition_node.isNone then
    let if_statement_idx := info.if_statement_index
    let parent_block := info.parent_block
    match info.parent_statement with
    | some ps => loop_condition_node := get_loop_condition_node st ps
    | none => pure ()
    if loop_condition_node.isNone && !(stmtListEq parent_block input_json) then
      loop_condition_node := find_loop_in_parent_block st parent_block input_json
    if loop_condition_node.isNone then
      loop_condition_node := find_loop_before_statement st parent_block if_statement_idx input_json
  return loop_condition_node

/-! ## Break-statement handling (`converter.py`) -/

/-- An entry collected by `_collect_break_statements`. -/
structure BreakEntry where
  statement : Stmt
  parent_loop : Option Stmt
deriving Repr

/-- `FlowchartConverter._collect_break_statements`. -/
def collect_break_statements (fuel : Nat) (st : ConvState) (statements : List Stmt)
    (current_loop : Option Stmt) : List BreakEntry :=
  match fuel with
  | 0 => []
  | f + 1 => Id.run do
    let mut result : List BreakEntry := []
    for stmt in statements do
      let e := getExtra st stmt
      if e.is_break then
        let parent_loop :=
          match e.parent_loop_statement with
          | some pl => some pl
          | none => current_loop
        result := result ++ [{ statement := stmt, parent_loop := parent_loop }]
      let tag := stmt.tagD
      let orig := stmt.origD
      if tag == "loop" || tag == "condition" || strIn "for" orig || strIn "while" orig then
        let new_loop := stmt
        if stmt.hasChildren then
          for child in stmt.childrenD do
            if child.tyD == "for_block" || child.tyD == "for_true_block" ||
                child.tyD == "while_block" || child.tyD == "while_true_block" then
              result := result ++ collect_break_statements f st child.childrenD (some new_loop)
      if stmt.hasChildren then
        for child in stmt.childrenD do
          if child.tyD == "if_block" || child.tyD == "else_block" then
            result := result ++ collect_break_statements f st child.childrenD current_loop
    return result

/-- `FlowchartConverter._find_node_by_text`. -/
def find_node_by_text (st : ConvState) (text : String) : Option PNode := Id.run do
  if text == "" then
    return none
  for node in st.nodes do
    if node.text == text then
      return some node
  return none

/-- `FlowchartConverter._find_next_in_block`. -/
def find_next_in_block (st : ConvState) (target_statement : Stmt)
    (block : List Stmt) (is_top_level : Bool) : Option PNode := Id.run do
  for pr in block.enum do
    let idx := pr.1
    let stmt := pr.2
    if stmt == target_statement then
      for next_idx in intRange (Int.ofNat idx + 1) (Int.ofNat block.length) do
        match listGetI block next_idx with
        | some next_stmt =>
            if next_stmt.tagD ≠ "block" then
              if is_top_level then
                return get_statement_first_node st next_idx.toNat
              else
                return find_node_by_text st next_stmt.translatedD
        | none => pure ()
      return none
  return none

/-- `FlowchartConverter._find_next_in_nested_blocks`. -/
def find_next_in_nested_blocks (fuel : Nat) (st : ConvState)
    (target_statement : Stmt) (statements : List Stmt) : Option PNode :=
  match fuel with
  | 0 => none
  | f + 1 => Id.run do
    for stmt in statements do
      if stmt.hasChildren then
        for child in stmt.childrenD do
          let child_type := child.tyD
          if child_type == "if_block" || child_type == "else_block" ||
              child_type == "for_block" || child_type == "for_true_block" ||
              child_type == "while_block" || child_type == "while_true_block" then
            let child_children := child.childrenD
            match find_next_in_block st target_statement child_children false with
            | some r => return some r
            | none => pure ()
            match find_next_in_nested_blocks f st target_statement child_children with
            | some r => return some r
            | none => pure ()
    return none

/-- `FlowchartConverter._find_statement_after_loop`. -/
def find_statement_after_loop (fuel : Nat) (st : ConvState)
    (loop_statement : Stmt) (input_json : List Stmt) : Option PNode :=
  match find_next_in_block st loop_statement input_json true with
  | some r => some r
  | none => find_next_in_nested_blocks fuel st loop_statement input_json

/-- `FlowchartConverter._find_parent_if_else_of_loop`. -/
def find_parent_if_else_of_loop (fuel : Nat) (loop_statement : Stmt)
    (statements : List Stmt) : Option Stmt :=
  match fuel with
  | 0 => none
  | f + 1 => Id.run do
    for stmt in statements do
      if stmt.hasChildren then
        for child in stmt.childrenD do
          if child.tyD == "if_block" || child.tyD == "else_block" then
            let child_children := child.childrenD
            if child_children.any (fun c => c == loop_statement) then
              return some stmt
            match find_parent_if_else_of_loop f loop_statement child_children with
            | some r => return some r
            | none => pure ()
    return none

/-- `FlowchartConverter._find_statement_after_loop_with_backtrack`. -/
def find_statement_after_loop_with_backtrack (fuel : Nat) (st : ConvState)
    (loop_statement : Option Stmt) (input_json : List Stmt) : Option PNode := Id.run do
  match loop_statement with
  | none => return none
  | some ls =>
      match find_statement_after_loop fuel st ls input_json with
      | some r => return some r
      | none =>
          match find_parent_if_else_of_loop fuel ls input_json with
          | some parent_if_else =>
              match find_statement_after_loop fuel st parent_if_else input_json with
              | some r => return some r
              | none => return none
          | none => return none

/-- `FlowchartConverter._process_break_statements`. -/
def process_break_statements (fuel : Nat) (st : ConvState) (input_json : List Stmt) :
    ConvState := Id.run do
  let break_statements := collect_break_statements fuel st input_json none
  if break_statements.isEmpty then
    return st
  let mut st := st
  for stmt_info in break_statements do
    let statement := stmt_info.statement
    let parent_loop := stmt_info.parent_loop
    match (getExtra st statement).break_node with
    | none => continue
    | some break_node =>
        match find_statement_after_loop_with_backtrack fuel st parent_loop input_json with
        | some next_after_loop =>
            st := add_connection st break_node.id "left" next_after_loop.id "up"
        | none =>
            match st.end_node with
            | some endN => st := add_connection st break_node.id "left" endN.id "up"
            | none => pure ()
  return st

/-! ## Orphan-node repair pass (`converter.py`) -/

/-- `FlowchartConverter._find_target_generic`.  Returns
`some (target, conn_type)` or `none` (the source's `(None, None)`).
`float('inf')` initialisations are modelled by `Option` accumulators. -/
def find_target_generic (st : ConvState) (orphan : PNode) :
    Option (PNode × String) := Id.run do
  let orphan_id := orphan.id
  let orphan_x := orphan.x
  let orphan_y := orphan.y
  -- 1. incoming connections
  let incoming := get_connections_to_node st orphan_id
  let mut from_decision_right := false
  for conn in incoming do
    match get_node_by_id st conn.start_item_id with
    | some start_node =>
        if start_node.ntype == "decision" then
          if conn.start_point_type == "right" then
            from_decision_right := true
            break
    | none => pure ()
  -- 2. pass-through (convergence) nodes
  let mut intermediate_nodes : List String := []
  let mut convergence_nodes_with_right : List String := []
  for node in st.nodes do
    let node_incoming := get_connections_to_node st node.id
    if node_incoming.length ≥ 2 then
      let node_outgoing := get_connections_from_node st node.id
      let has_down_out := node_outgoing.any (fun c => c.start_point_type == "down")
      let has_right_out := node_outgoing.any (fun c => c.start_point_type == "right")
      if has_down_out then
        intermediate_nodes := intermediate_nodes ++ [node.id]
      if has_right_out then
        convergence_nodes_with_right := convergence_nodes_with_right ++ [node.id]
  -- 3. collect candidates
  let mut down_candidates : List (PNode × Q × Q) := []
  let mut right_candidates : List (PNode × Q × Q) := []
  for node in st.nodes do
    let node_id := node.id
    if node_id == "" || node_id == orphan_id || node.text == "开始" || node.text == "结束" then
      continue
    let node_y := node.y
    let node_x := node.x
    let node_type := node.ntype
    let y_diff := Q.sub node_y orphan_y
    let x_diff := Q.absq (Q.sub node_x orphan_x)
    if Q.ltb (q 0) y_diff && Q.leb y_diff (q 500) then
      -- downward candidate
      if intermediate_nodes.contains node_id && Q.ltb y_diff (q 200) then
        continue
      if Q.ltb y_diff (q 150) then
        let node_incoming := get_connections_to_node st node_id
        let mut is_parallel_branch := node_incoming.any (fun c =>
          (c.start_point_type == "right" || c.start_point_type == "down") &&
          (match get_node_by_id st c.start_item_id with
           | some p => p.ntype == "decision"
           | none => false))
        if !is_parallel_branch then
          for conn in node_incoming do
            match get_node_by_id st conn.start_item_id with
            | some parent =>
                if parent.ntype == "process" || parent.ntype == "input" then
                  let parent_incoming := get_connections_to_node st parent.id
                  let parent_from_decision := parent_incoming.any (fun c =>
                    (c.start_point_type == "right" || c.start_point_type == "down") &&
                    (match get_node_by_id st c.start_item_id with
                     | some gp => gp.ntype == "decision"
                     | none => false))
                  if parent_from_decision then
                    is_parallel_branch := true
                    break
            | none => pure ()
            if is_parallel_branch then
              break
        if is_parallel_branch then
          continue
      let mut score := y_diff
      let orphan_in_main := Q.ltb (Q.absq (Q.sub orphan_x base_x)) (q 100)
      let is_main := Q.ltb (Q.absq (Q.sub node_x base_x)) (q 50)
      if is_main && orphan_in_main then
        score := Q.mul score (qTenth 4)
      else if is_main then
        score := Q.mul score (qTenth 7)
      else if Q.ltb x_diff (q 250) then
        score := Q.mul score (qTenth 5)
      else if Q.ltb x_diff (q 500) then
        score := Q.mul score (qTenth 8)
      else
        score := Q.mul score (q 1)
      if node_id ≠ orphan_id then
        down_candidates := down_candidates ++ [(node, score, y_diff)]
    else if Q.ltb y_diff (q 0) && node_type == "decision" then
      -- upward candidate: loop nodes
      if Q.ltb (q 200) (Q.absq y_diff) && Q.ltb (Q.absq y_diff) (q 1000) then
        let text := node.text
        let is_loop := strIn "判断：" text || strIn "循环" text || strIn "for" text ||
          strIn "while" text || strIn "<" text || strIn "<=" text
        if is_loop then
          let score := Q.mul (Q.absq y_diff) (qTenth 5)
          right_candidates := right_candidates ++ [(node, score, y_diff)]
  -- 4. choose the best target
  let down_sorted := (sortByLt (fun a b => Q.ltb a.2.1 b.2.1) down_candidates).filter
    (fun c => c.1.id ≠ orphan_id)
  let right_sorted := (sortByLt (fun a b => Q.ltb a.2.1 b.2.1) right_candidates).filter
    (fun c => c.1.id ≠ orphan_id)
  if from_decision_right then
    match down_sorted, right_sorted with
    | best_down :: rest_down, best_right :: _ =>
        let best_down_y := best_down.2.2
        let best_down_node := best_down.1
        let best_down_is_convergence := convergence_nodes_with_right.contains best_down_node.id
        if best_down_is_convergence && Q.ltb (q 100) best_down_y then
          let other_down := rest_down.filter
            (fun c => !(convergence_nodes_with_right.contains c.1.id))
          match other_down with
          | other :: _ =>
              if Q.ltb other.2.2 (q 300) then
                return some (best_right.1, "right")
              else
                return some (best_down.1, "down")
          | [] => return some (best_down.1, "down")
        if Q.ltb best_down_y (q 150) then
          return some (best_down.1, "down")
        else if Q.ltb best_down_y (q 300) then
          let best_down_x_diff := Q.absq (Q.sub best_down_node.x orphan_x)
          let best_down_type := best_down_node.ntype
          let down_in_main := Q.ltb (Q.absq (Q.sub best_down_node.x base_x)) (q 100)
          if best_down_type == "process" || best_down_type == "input" then
            if down_in_main && Q.ltb best_down_y (q 250) then
              return some (best_down.1, "down")
            else if Q.ltb best_down_x_diff (q 700) then
              return some (best_down.1, "down")
            else
              return some (best_right.1, "right")
          else
            if Q.ltb best_down_x_diff (q 300) then
              return some (best_down.1, "down")
            else
              return some (best_right.1, "right")
        else
          return some (best_right.1, "right")
    | [], best_right :: _ => return some (best_right.1, "right")
    | best_down :: _, [] => return some (best_down.1, "down")
    | [], [] => return none
  else
    match down_sorted with
    | best :: _ => return some (best.1, "down")
    | [] =>
        match right_sorted with
        | best :: _ => return some (best.1, "right")
        | [] => return none

/-- `FlowchartConverter._connect_orphan_nodes_generic`. -/
def connect_orphan_nodes_generic (st : ConvState) : ConvState := Id.run do
  let mut orphans : List PNode := []
  for node in st.nodes do
    if node.text == "开始" || node.text == "结束" then
      continue
    let node_text := strLower node.text
    if node_text == "break;" || node_text == "continue;" then
      continue
    if (get_connections_from_node st node.id).isEmpty then
      orphans := orphans ++ [node]
  if orphans.isEmpty then
    return st
  let mut st := st
  for orphan in orphans do
    match find_target_generic st orphan with
    | some (target, conn_type) =>
        if target.id ≠ orphan.id then
          st := add_connection st orphan.id conn_type target.id "up"
    | none => pure ()
  return st

/-! ## Final fix-up passes (`converter.py`) -/

/-- `FlowchartConverter._fix_down_to_outer_layer`.  (The source also
computes `x_dist`, `target_from_decision` and `target_is_convergence`, but
never uses them; these effect-free computations are omitted.) -/
def fix_down_to_outer_layer (st : ConvState) : ConvState := Id.run do
  let mut nodes_to_fix : List (PNode × Conn × PNode) := []
  for node in st.nodes do
    if node.text == "开始" || node.text == "结束" then
      continue
    let node_text_lower := strLower node.text
    if node_text_lower == "break;" || node_text_lower == "continue;" then
      continue
    let node_id := node.id
    let node_y := node.y
    let incoming := get_connections_to_node st node_id
    let from_decision_right := incoming.any (fun c =>
      c.start_point_type == "right" &&
      (match get_node_by_id st c.start_item_id with
       | some s => s.ntype == "decision"
       | none => false))
    if !from_decision_right then
      continue
    let outgoing := get_connections_from_node st node_id
    if outgoing.length ≠ 1 then
      continue
    match outgoing with
    | conn :: _ =>
        if conn.start_point_type ≠ "down" then
          continue
        match get_node_by_id st conn.end_item_id with
        | some target =>
            if target.ntype ≠ "process" && target.ntype ≠ "input" then
              continue
            let target_y := target.y
            let target_x := target.x
            let y_diff := Q.sub target_y node_y
            let target_in_main := Q.ltb (Q.absq (Q.sub target_x base_x)) (q 100)
            let should_check_right := Q.ltb (q 100) y_diff && target_in_main
            if should_check_right then
              let mut better_right : Option PNode := none
              let mut min_distance : Option Q := none
              for candidate in st.nodes do
                if candidate.id == node_id || candidate.ntype ≠ "decision" then
                  continue
                let cand_y_diff := Q.sub candidate.y node_y
                if Q.ltb cand_y_diff (q 0) && Q.ltb (q 200) (Q.absq cand_y_diff) &&
                    Q.ltb (Q.absq cand_y_diff) (q 800) then
                  let cand_text := candidate.text
                  let is_loop := strIn "判断：" cand_text || strIn "循环" cand_text ||
                    strIn "for" cand_text || strIn "while" cand_text ||
                    strIn "<" cand_text || strIn "<=" cand_text
                  if is_loop then
                    let distance := Q.absq cand_y_diff
                    let better :=
                      match min_distance with
                      | none => true
                      | some md => Q.ltb distance md
                    if better then
                      min_distance := some distance
                      better_right := some candidate
              match better_right with
              | some br => nodes_to_fix := nodes_to_fix ++ [(node, conn, br)]
              | none => pure ()
        | none => pure ()
    | [] => pure ()
  -- apply the fixes
  let mut st := st
  for fix in nodes_to_fix do
    let (node, wrong_conn, correct_target) := fix
    st := { st with connections := eraseFirst st.connections wrong_conn }
    st := add_connection st node.id "right" correct_target.id "up"
  return st

/-- `FlowchartConverter._fix_obviously_wrong_connections`. -/
def fix_obviously_wrong_connections (st : ConvState) : ConvState := Id.run do
  let mut nodes_to_fix : List (PNode × Conn × PNode) := []
  for node in st.nodes do
    if node.text == "开始" || node.text == "结束" then
      continue
    let node_text := strLower node.text
    if node_text == "break;" || node_text == "continue;" then
      continue
    let node_id := node.id
    let incoming := get_connections_to_node st node_id
    let from_decision_right := incoming.any (fun c =>
      c.start_point_type == "right" &&
      (match get_node_by_id st c.start_item_id with
       | some s => s.ntype == "decision"
       | none => false))
    if !from_decision_right then
      continue
    let outgoing := get_connections_from_node st node_id
    if outgoing.length ≠ 1 then
      continue
    match outgoing with
    | conn :: _ =>
        if conn.start_point_type ≠ "right" then
          continue
        match get_node_by_id st conn.end_item_id with
        | some target_node =>
            let node_y := node.y
            let target_y := target_node.y
            let y_diff_to_target := Q.sub target_y node_y
            let abs_y_to_target := Q.absq y_diff_to_target
            if Q.leb (q 0) y_diff_to_target then
              continue
            let target_text := target_node.text
            let target_is_loop := strIn "判断：" target_text || strIn "循环" target_text ||
              strIn "for" target_text || strIn "while" target_text ||
              strIn "<" target_text || strIn "<=" target_text
            if Q.ltb abs_y_to_target (q 600) && target_is_loop then
              continue
            let mut better_target : Option PNode := none
            let mut best_score : Option Q := none
            for candidate in st.nodes do
              if candidate.id == node_id || candidate.text == "开始" ||
                  candidate.text == "结束" then
                continue
              let cand_type := candidate.ntype
              if cand_type ≠ "process" && cand_type ≠ "input" then
                continue
              let y_diff := Q.sub candidate.y node_y
              if Q.ltb (q 0) y_diff && Q.leb y_diff (q 250) then
                let x_diff := Q.absq (Q.sub candidate.x node.x)
                if Q.ltb (q 700) x_diff then
                  continue
                let score := Q.add y_diff (Q.mul x_diff (qTenth 5))
                let better :=
                  match best_score with
                  | none => true
                  | some bs => Q.ltb score bs
                if better then
                  best_score := some score
                  better_target := some candidate
            match better_target, best_score with
            | some bt, some bs =>
                let better_y := Q.sub bt.y node_y
                let max_allowed_score := if Q.ltb better_y (q 150) then q 600 else q 500
                if Q.leb bs max_allowed_score then
                  nodes_to_fix := nodes_to_fix ++ [(node, conn, bt)]
            | _, _ => pure ()
        | none => pure ()
    | [] => pure ()
  -- apply the fixes
  let mut st := st
  for fix in nodes_to_fix do
    let (node, wrong_conn, correct_target) := fix
    st := { st with connections := eraseFirst st.connections wrong_conn }
    st := add_connection st node.id "down" correct_target.id "up"
  return st

/-! ## Remaining converter helpers -/

/-- `FlowchartConverter._infer_context_type`. -/
def infer_context_type (parent_block : Option (List Stmt)) : String := Id.run do
  match parent_block with
  | none => return "main"
  | some pb =>
      if pb.isEmpty then
        return "main"
      if pb.any (fun stmt =>
          strIn "for" (strLower stmt.origD) || strIn "while" (strLower stmt.origD) ||
          stmt.tagD == "loop") then
        return "loop"
      if pb.any (fun stmt => stmt.tyD == "if_block") then
        return "if_block"
      if pb.any (fun stmt => stmt.tyD == "else_block") then
        return "else_block"
      return "main"

/-- `FlowchartConverter._adjust_y_after_branches`. -/
def adjust_y_after_branches (st : ConvState) (statement : Stmt) (y next_y : Q) : Q := Id.run do
  let mut max_branch_y := y
  let e := getExtra st statement
  match e.if_block_max_y with
  | some v => max_branch_y := Q.maxq max_branch_y v
  | none => pure ()
  match e.else_block_max_y with
  | some v => max_branch_y := Q.maxq max_branch_y v
  | none => pure ()
  return Q.maxq next_y (Q.add max_branch_y level_height)

/-- `FlowchartConverter._calculate_max_statement_chain`. -/
def calculate_max_statement_chain (fuel : Nat) (child : Stmt) : Nat := Id.run do
  let mut max_statement_chain := 0
  if child.hasChildren then
    for grandchild in child.childrenD do
      if grandchild.tyD ≠ "else_block" then
        if grandchild.hasChildren then
          for great_grandchild in grandchild.childrenD do
            if great_grandchild.tagD ≠ "block" then
              let chain_length := count_statement_chain fuel great_grandchild
              if chain_length > max_statement_chain then
                max_statement_chain := chain_length
  return max_statement_chain

/-- The nested closure `check_statements` of
`FlowchartConverter._check_next_if_in_n_statements`; returns the updated
`(counted_statements, has_next_if_in_n_statements)` pair. -/
def check_statements_rec (fuel : Nat) (statement : Stmt) (stmts : List Stmt)
    (max_count : Nat) (counted0 : Nat) (found0 : Bool) : Nat × Bool :=
  match fuel with
  | 0 => (counted0, found0)
  | f + 1 => Id.run do
    let mut counted := counted0
    let mut found := found0
    if counted ≥ max_count || found then
      return (counted, found)
    for stmt in stmts do
      counted := counted + 1
      let stmt_type := stmt.tyD
      if !(stmt == statement) &&
          (stmt_type == "if_block" || stmt_type == "while_block" ||
           stmt_type == "while_true_block") then
        found := true
        return (counted, found)
      if stmt.hasChildren then
        let (c1, f1) := check_statements_rec f statement stmt.childrenD max_count counted found
        counted := c1
        found := f1
        if counted ≥ max_count || found then
          return (counted, found)
    return (counted, found)

/-- `FlowchartConverter._check_next_if_in_n_statements`.  (`self.current_block`
is never assigned during a conversion, so the trailing search over it is
dead; it is embedded faithfully over the state field.) -/
def check_next_if_in_n_statements (fuel : Nat) (st : ConvState) (statement : Stmt)
    (max_statement_chain : Nat) : Bool := Id.run do
  if max_statement_chain = 0 then
    return false
  let mut counted := 0
  let mut found := false
  for child in statement.childrenD do
    if child.hasChildren then
      let (c1, f1) := check_statements_rec fuel statement child.childrenD
        max_statement_chain counted found
      counted := c1
      found := f1
      if counted ≥ max_statement_chain || found then
        break
  if !found && counted < max_statement_chain then
    match st.current_block with
    | some current_block =>
        for pr in current_block.enum do
          let i := pr.1
          let stmt := pr.2
          if stmt == statement then
            let remaining := max_statement_chain - counted
            let next_stmts := (current_block.drop (i + 1)).take remaining
            let (c1, f1) := check_statements_rec fuel statement next_stmts
              max_statement_chain counted found
            counted := c1
            found := f1
            break
    | none => pure ()
  return found

/-- Lookup of the registered loop-condition node of an optional statement. -/
def optLoopCond (st : ConvState) (o : Option Stmt) : Option PNode :=
  match o with
  | some ps => get_loop_condition_node st ps
  | none => none

/-- The trailing search of `_save_if_else_reconnect_in_block`: scan the top
level for a loop statement whose body contains `statement` and return its
condition node (`None` entries keep the scan going, as in the source). -/
def find_enclosing_loop_cond (fuel : Nat) (st : ConvState) (statement : Stmt) :
    Option PNode := Id.run do
  for loop_item in st.input_json do
    let loop_tag := loop_item.tagD
    let loop_orig := strLower loop_item.origD
    if strIn "for" loop_orig || strIn "while" loop_orig ||
        loop_tag == "loop" || loop_tag == "condition" then
      if is_statement_in_loop fuel statement loop_item then
        let mut lcn := get_loop_condition_node st loop_item
        if lcn.isNone then
          for pr2 in st.input_json.enum do
            if pr2.2 == loop_item then
              lcn := get_statement_first_node st pr2.1
              break
        if lcn.isSome then
          return lcn
  return none

/-- `FlowchartConverter._save_if_else_reconnect_in_block`. -/
def save_if_else_reconnect_in_block (fuel : Nat) (st : ConvState) (statement : Stmt)
    (stmt_current : Option PNode) (idx : Nat) (block : List Stmt)
    (context_type : Option String) (parent_statement : Option Stmt) :
    ConvState :=
  let e := getExtra st statement
  let if_block_info := e.if_block_info
  let else_block_info := e.else_block_info
  if if_block_info.isSome || else_block_info.isSome then
    let actual_context_type : Option String :=
      match e.context_type with
      | some s => some s
      | none => context_type
    -- is this if-else inside a loop?
    let stage1 : Option String × Bool × Option PNode :=
      if actual_context_type == some "loop" then
        (actual_context_type, true, optLoopCond st parent_statement)
      else
        match optLoopCond st parent_statement with
        | some lcn => (some "loop", true, some lcn)
        | none => (actual_context_type, false, none)
    let stage2 : Option String × Bool × Option PNode :=
      if stage1.2.2.isNone && !stage1.2.1 then
        match find_enclosing_loop_cond fuel st statement with
        | some lcn => (some "loop", true, some lcn)
        | none => stage1
      else stage1
    let if_last : Option PNode :=
      match if_block_info with | some i => i.last_node | none => none
    let else_last : Option PNode :=
      match else_block_info with | some i => i.last_node | none => none
    let if_has : Bool :=
      match if_block_info with | some i => i.has_return | none => false
    let else_has : Bool :=
      match else_block_info with | some i => i.has_return | none => false
    add_pending_reconnect st
      { if_last_node := if_last
        else_last_node := else_last
        if_has_return := if_has
        else_has_return := else_has
        condition_node := stmt_current
        parent_block := block
        if_statement_index := Int.ofNat idx
        context_type := stage2.1
        loop_condition_node := stage2.2.2
        parent_statement := parent_statement }
  else st

/-! ## Nested if-else reconnection (`IfElseProcessor`) -/

/-- `IfElseProcessor._find_nested_condition_node`. -/
def find_nested_condition_node (st : ConvState) (if_block_info : Option BlockInfo)
    (parent_condition_node : Option PNode) : Option PNode := Id.run do
  let mut nested_condition_node : Option PNode := none
  match if_block_info with
  | some info =>
      match info.last_node with
      | some if_last_node =>
          for conn in st.connections do
            if conn.end_item_id == if_last_node.id && conn.end_point_type == "up" then
              nested_condition_node := get_node_by_id st conn.start_item_id
              match nested_condition_node with
              | some n =>
                  if n.ntype == "decision" then
                    break
              | none => pure ()
      | none => pure ()
  | none => pure ()
  if nested_condition_node.isNone then
    nested_condition_node := parent_condition_node
  return nested_condition_node

/-- `IfElseProcessor._find_nested_next_node`. -/
def find_nested_next_node (st : ConvState) (statement : Stmt)
    (parent_block : List Stmt) (next_statement_first_node : Option PNode)
    (loop_condition_node : Option PNode) (else_block_info : Option BlockInfo) :
    Option PNode := Id.run do
  let mut nested_next_node : Option PNode := none
  if !parent_block.isEmpty then
    for pr in parent_block.enum do
      let idx := pr.1
      let stmt := pr.2
      if stmt == statement then
        let skip_count := skipElseCount parent_block (Int.ofNat idx)
        let current_else_last_node : Option PNode :=
          match else_block_info with
          | some ebi => ebi.last_node
          | none => none
        for next_idx in intRange (Int.ofNat idx + skip_count) (Int.ofNat parent_block.length) do
          match listGetI parent_block next_idx with
          | some next_stmt =>
              if next_stmt.tagD ≠ "block" then
                match current_else_last_node, next_statement_first_node with
                | some celn, some nsfn =>
                    if nsfn.id == celn.id then
                      nested_next_node := loop_condition_node
                    else
                      nested_next_node := some nsfn
                | _, _ =>
                    nested_next_node :=
                      match next_statement_first_node with
                      | some n => some n
                      | none => loop_condition_node
                break
          | none => pure ()
        break
  if nested_next_node.isNone then
    nested_next_node :=
      match next_statement_first_node with
      | some n => some n
      | none => loop_condition_node
  return nested_next_node

/-- `IfElseProcessor._determine_nested_context_type`. -/
def determine_nested_context_type (st : ConvState) (statement : Stmt)
    (loop_condition_node parent_condition_node : Option PNode) : String :=
  match (getExtra st statement).context_type with
  | some t => t
  | none =>
      if loop_condition_node.isSome then "loop"
      else if parent_condition_node.isSome then "loop"
      else "main"

/-- `IfElseProcessor._find_nested_parent_block`.  Its unique call site passes
a *list* where a statement dict is expected, so the Python membership tests
`"children" in statement` are string-in-list tests that are always false for
statement elements; the function therefore always returns `(None, -1)`
there. -/
def find_nested_parent_block (nested_stmt : Stmt) (statement : List Stmt) :
    Option (List Stmt) × Int :=
  (none, -1)

/-- `IfElseProcessor._find_nested_stmt_next_node`. -/
def find_nested_stmt_next_node (nested_stmt : Stmt)
    (nested_parent_block : Option (List Stmt)) (nested_statement_index : Int)
    (nested_next_node : Option PNode) : Option PNode := Id.run do
  match nested_parent_block with
  | some npb =>
      if nested_statement_index ≥ 0 then
        let skip_count := skipElseCount npb nested_statement_index
        for next_idx in intRange (nested_statement_index + skip_count) (Int.ofNat npb.length) do
          match listGetI npb next_idx with
          | some next_stmt =>
              if next_stmt.tagD ≠ "block" then
                return nested_next_node
          | none => pure ()
      return nested_next_node
  | none => return nested_next_node

/-- `IfElseProcessor._ensure_loop_reconnect` (returns immediately in the
source; the forced reconnection is disabled). -/
def ensure_loop_reconnect (st : ConvState) : ConvState := st

mutual

/-- `IfElseProcessor.handle_nested_if_else_reconnect`. -/
def handle_nested_if_else_reconnect (fuel : Nat) (st : ConvState) (statement : Stmt)
    (parent_block : List Stmt) (if_statement_index : Int)
    (next_statement_first_node loop_condition_node : Option PNode)
    (context_stack : List CtxFrame) (parent_condition_node : Option PNode) :
    ConvState :=
  match fuel with
  | 0 => st
  | f + 1 => Id.run do
    if statement.tagD ≠ "condition" && statement.tagD ≠ "branch" then
      return st
    let e := getExtra st statement
    let if_block_info := e.if_block_info
    let else_block_info := e.else_block_info
    let nested_condition_node := find_nested_condition_node st if_block_info parent_condition_node
    let nested_next_node := find_nested_next_node st statement parent_block
      next_statement_first_node loop_condition_node else_block_info
    let mut st := st
    if if_block_info.isSome || else_block_info.isSome then
      let nested_context_type := determine_nested_context_type st statement
        loop_condition_node parent_condition_node
      let if_last : Option PNode :=
        match if_block_info with | some i => i.last_node | none => none
      let else_last : Option PNode :=
        match else_block_info with | some i => i.last_node | none => none
      let if_has : Bool :=
        match if_block_info with | some i => i.has_return | none => false
      let else_has : Bool :=
        match else_block_info with | some i => i.has_return | none => false
      st := handle_if_else_reconnect st if_last else_last if_has else_has
        nested_condition_node parent_block if_statement_index nested_next_node
        loop_condition_node context_stack (some nested_context_type)
    st := process_deeply_nested_if_else f st statement parent_block nested_next_node
      loop_condition_node context_stack nested_condition_node
    return st

/-- `IfElseProcessor._process_deeply_nested_if_else`. -/
def process_deeply_nested_if_else (fuel : Nat) (st : ConvState) (statement : Stmt)
    (parent_block : List Stmt) (nested_next_node loop_condition_node : Option PNode)
    (context_stack : List CtxFrame) (nested_condition_node : Option PNode) :
    ConvState :=
  match fuel with
  | 0 => st
  | f + 1 => Id.run do
    let nested_if_else_list := find_all_nested_if_else (f + 1) st statement
    let mut st := st
    for nested_stmt in nested_if_else_list do
      if nested_stmt == statement then
        continue
      st := process_single_nested_if_else f st nested_stmt parent_block nested_next_node
        loop_condition_node context_stack nested_condition_node
    return st

/-- `IfElseProcessor._process_single_nested_if_else`. -/
def process_single_nested_if_else (fuel : Nat) (st : ConvState) (nested_stmt : Stmt)
    (parent_block : List Stmt) (nested_next_node loop_condition_node : Option PNode)
    (context_stack : List CtxFrame) (nested_condition_node : Option PNode) :
    ConvState :=
  match fuel with
  | 0 => st
  | f + 1 => Id.run do
    let e := getExtra st nested_stmt
    let nested_if_info := e.if_block_info
    let nested_else_info := e.else_block_info
    if nested_if_info.isNone && nested_else_info.isNone then
      return st
    let nested_cond_node := find_nested_condition_node st nested_if_info nested_condition_node
    let (nested_parent_block, nested_statement_index) :=
      find_nested_parent_block nested_stmt parent_block
    let nested_stmt_next_node := find_nested_stmt_next_node nested_stmt
      nested_parent_block nested_statement_index nested_next_node
    let nested_ctx_type := determine_nested_context_type st nested_stmt
      loop_condition_node nested_condition_node
    let effective_block :=
      match nested_parent_block with
      | some npb => npb
      | none => parent_block
    let if_last : Option PNode :=
      match nested_if_info with | some i => i.last_node | none => none
    let else_last : Option PNode :=
      match nested_else_info with | some i => i.last_node | none => none
    let if_has : Bool :=
      match nested_if_info with | some i => i.has_return | none => false
    let else_has : Bool :=
      match nested_else_info with | some i => i.has_return | none => false
    let mut st := handle_if_else_reconnect st if_last else_last if_has else_has
      nested_cond_node effective_block nested_statement_index nested_stmt_next_node
      loop_condition_node context_stack (some nested_ctx_type)
    st := ensure_loop_reconnect st
    st := handle_nested_if_else_reconnect f st nested_stmt effective_block
      nested_statement_index nested_stmt_next_node loop_condition_node
      context_stack nested_cond_node
    return st

end

/-! ## Reconnection driver (`converter.py`) -/

/-- `FlowchartConverter._process_pending_reconnects`. -/
def process_pending_reconnects (fuel : Nat) (st : ConvState) (input_json : List Stmt) :
    ConvState := Id.run do
  let pending := st.pending_if_else_reconnects
  let mut st := st
  for info in pending do
    let next_statement_first_node := find_next_statement_node st info input_json
    let loop_condition_node := get_loop_condition_node_for_reconnect st info input_json
    st := handle_if_else_reconnect st info.if_last_node info.else_last_node
      info.if_has_return info.else_has_return info.condition_node info.parent_block
      info.if_statement_index next_statement_first_node loop_condition_node
      st.statement_context_stack info.context_type
    let parent_block := info.parent_block
    let if_statement_idx := info.if_statement_index
    if if_statement_idx < Int.ofNat parent_block.length then
      match listGetI parent_block if_statement_idx with
      | some original_statement =>
          if original_statement.tagD == "condition" || original_statement.tagD == "branch" then
            st := handle_nested_if_else_reconnect fuel st original_statement parent_block
              if_statement_idx next_statement_first_node loop_condition_node
              st.statement_context_stack info.condition_node
      | none => pure ()
  return st

/-! ## The recursive synthesis walk (`converter.py`)

The Python methods below are mutually recursive over the statement tree; the
fuel parameter makes the recursion structural.  Every recursive call passes
the decremented fuel. -/

/-- `FlowchartConverter._process_return_statement`. -/
def process_return_statement (st : ConvState) (x y : Q) (parent_node : Option PNode)
    (connection_dir : String) : (Option PNode × Bool × Q × Q) × ConvState := Id.run do
  let (end_node, st) := create_node st "end" "结束" x y
  let mut st := st
  match parent_node with
  | some pn => st := add_connection st pn.id connection_dir end_node.id "up"
  | none => pure ()
  st := { st with end_node := some end_node, last_node := some end_node }
  return ((some end_node, true, x, Q.add y level_height), st)

/-- `FlowchartConverter._process_break_statement`. -/
def process_break_statement (st : ConvState) (statement : Stmt) (x y : Q)
    (parent_node : Option PNode) (connection_dir : String)
    (parent_loop_statement : Option Stmt) :
    (Option PNode × Bool × Q × Q) × ConvState := Id.run do
  let (break_node, st) := create_node st "process" "break;" x y
  let mut st := st
  match parent_node with
  | some pn => st := add_connection st pn.id connection_dir break_node.id "up"
  | none => pure ()
  -- mark the statement as a break and record the context
  let e := getExtra st statement
  st := setExtra st statement
    { e with is_break := true, break_node := some break_node,
             parent_loop_statement := parent_loop_statement }
  st := { st with last_node := some break_node }
  return ((some break_node, true, x, Q.add y level_height), st)

/-- `FlowchartConverter._process_continue_statement`. -/
def process_continue_statement (st : ConvState) (statement : Stmt) (x y : Q)
    (parent_node : Option PNode) (connection_dir : String)
    (parent_loop_statement : Option Stmt) :
    (Option PNode × Bool × Q × Q) × ConvState := Id.run do
  let (continue_node, st) := create_node st "process" "continue;" x y
  let mut st := st
  match parent_node with
  | some pn => st := add_connection st pn.id connection_dir continue_node.id "up"
  | none => pure ()
  let loop_condition_node := optLoopCond st parent_loop_statement
  match loop_condition_node with
  | some lcn =>
      st := add_connection st continue_node.id "right" lcn.id "up"
  | none =>
      let e := getExtra st statement
      st := setExtra st statement
        { e with is_continue := true, continue_node := some continue_node,
                 parent_loop_statement := parent_loop_statement }
  st := { st with last_node := some continue_node }
  return ((some continue_node, true, x, Q.add y level_height), st)

mutual

/-- `FlowchartConverter.process_statement`. -/
def process_statement (fuel : Nat) (st : ConvState) (statement : Stmt) (x y : Q)
    (parent_node : Option PNode) (connection_dir : String)
    (context_type : Option String) (parent_block : Option (List Stmt))
    (block_index : Int) (parent_loop_statement : Option Stmt) :
    (Option PNode × Bool × Q × Q) × ConvState :=
  match fuel with
  | 0 => ((parent_node, false, x, y), st)
  | f + 1 => Id.run do
    if statement.tagD == "block" then
      return ((parent_node, false, x, y), st)
    let node_text := statement.translatedD
    let tag := statement.tagD
    let mut node_type := "process"
    if tag == "i/o" then
      node_type := "input"
    else if tag == "condition" || tag == "branch" || tag == "loop" then
      if strIn "while" statement.origD && tag == "loop" then
        node_type := "decision"
      else if strIn "else" statement.origD && node_text == "否则" then
        return process_else_block f st statement x y parent_node
      else
        node_type := "decision"
    if strIn "return" node_text || strIn "返回" node_text then
      return process_return_statement st x y parent_node connection_dir
    if strIn "break" node_text && strEndsWith "break;" (strStrip node_text) then
      return process_break_statement st statement x y parent_node connection_dir
        parent_loop_statement
    if strIn "continue" node_text && strEndsWith "continue;" (strStrip node_text) then
      return process_continue_statement st statement x y parent_node connection_dir
        parent_loop_statement
    let (current_node, st0) := create_node st node_type node_text x y
    let mut st := st0
    match context_type with
    | some ct =>
        let e := getExtra st statement
        st := setExtra st statement { e with context_type := some ct }
    | none => pure ()
    match parent_node with
    | some pn => st := add_connection st pn.id connection_dir current_node.id "up"
    | none => pure ()
    let ((has_return, next_x, next_y0), st1) := process_statement_children f st statement
      current_node x y context_type parent_block parent_loop_statement
    st := st1
    let mut next_y := next_y0
    if (tag == "condition" || tag == "branch") && statement.hasChildren &&
        !statement.childrenD.isEmpty then
      next_y := adjust_y_after_branches st statement y next_y
    st := { st with last_node := some current_node }
    return ((some current_node, has_return, next_x, next_y), st)

/-- `FlowchartConverter._process_else_block`. -/
def process_else_block (fuel : Nat) (st : ConvState) (statement : Stmt) (x y : Q)
    (parent_node : Option PNode) : (Option PNode × Bool × Q × Q) × ConvState :=
  match fuel with
  | 0 => ((parent_node, false, x, y), st)
  | f + 1 => Id.run do
    let mut child_has_return := false
    let mut child_next_y :=
      match parent_node with
      | some pn => Q.add pn.y condition_offset_y
      | none => y
    let mut last_child_node : Option PNode := none
    let mut st := st
    if statement.hasChildren && !statement.childrenD.isEmpty then
      for child in statement.childrenD do
        if child.tyD == "else_block" then
          let block_x :=
            match (getExtra st child).x_coord with
            | some v => v
            | none => x
          let else_block_start_y :=
            match parent_node with
            | some pn => Q.add pn.y condition_offset_y
            | none => child_next_y
          for grandchild in child.childrenD do
            let use_dir := "down"
            if parent_node.isSome && last_child_node.isNone then
              let (r, st1) := process_statement f st grandchild block_x else_block_start_y
                parent_node "down" none none (-1) none
              st := st1
              last_child_node := r.1
              child_has_return := child_has_return || r.2.1
              child_next_y := Q.maxq child_next_y r.2.2.2
            else
              let (r, st1) := process_statement f st grandchild block_x child_next_y
                last_child_node use_dir none none (-1) none
              st := st1
              last_child_node := r.1
              child_has_return := child_has_return || r.2.1
              child_next_y := Q.maxq child_next_y r.2.2.2
        else
          let (r, st1) := process_statement f st child x child_next_y parent_node "down"
            none none (-1) none
          st := st1
          last_child_node := r.1
          child_has_return := child_has_return || r.2.1
          child_next_y := Q.maxq child_next_y r.2.2.2
    match last_child_node with
    | some lcn => return ((some lcn, child_has_return, x, child_next_y), st)
    | none => return ((parent_node, child_has_return, x, child_next_y), st)

/-- `FlowchartConverter._process_statement_children`. -/
def process_statement_children (fuel : Nat) (st : ConvState) (statement : Stmt)
    (current_node : PNode) (x y : Q) (context_type : Option String)
    (parent_block : Option (List Stmt)) (parent_loop_statement : Option Stmt) :
    (Bool × Q × Q) × ConvState :=
  match fuel with
  | 0 => ((false, x, Q.add y level_height), st)
  | f + 1 => Id.run do
    let mut has_return := false
    let next_x := x
    let mut next_y := Q.add y level_height
    if !statement.hasChildren || statement.childrenD.isEmpty then
      return ((has_return, next_x, next_y), st)
    let children := statement.childrenD
    let has_case_block := children.any (fun child => child.tyD == "case_block")
    if has_case_block then
      return process_switch_cases_in_statement f st statement current_node x y
        context_type parent_block parent_loop_statement
    let mut st := st
    let mut cur : Option PNode := some current_node
    for child in children do
      if child.ty.isSome then
        if child.tyD == "if_block" then
          let (r, st1) := process_if_block f st child statement cur x y context_type
            parent_block parent_loop_statement
          st := st1
          has_return := r.1
          next_y := r.2
        else if child.tyD == "else_block" then
          let (r, st1) := process_else_block_in_statement f st child statement cur x y
            context_type parent_block parent_loop_statement
          st := st1
          has_return := r.1
          next_y := r.2
        else if child.tyD == "while_true_block" then
          let (r, st1) := process_while_block_in_statement f st child cur x y
            (some statement)
          st := st1
          next_y := r
        else if child.tyD == "for_true_block" then
          let (r, st1) := process_for_block_in_statement f st child cur x y
            (some statement)
          st := st1
          next_y := r
      else
        let (r, st1) := process_statement f st child next_x next_y cur "down"
          none none (-1) parent_loop_statement
        st := st1
        cur := r.1
        has_return := has_return || r.2.1
        next_y := r.2.2.2
    return ((has_return, next_x, next_y), st)

/-- `FlowchartConverter._process_switch_cases_in_statement`. -/
def process_switch_cases_in_statement (fuel : Nat) (st : ConvState) (statement : Stmt)
    (current_node : PNode) (x y : Q) (context_type : Option String)
    (parent_block : Option (List Stmt)) (parent_loop_statement : Option Stmt) :
    (Bool × Q × Q) × ConvState :=
  match fuel with
  | 0 => ((false, x, Q.add y level_height), st)
  | f + 1 => Id.run do
    let mut has_return := false
    let children := statement.childrenD.filter (fun c => c.tyD == "case_block")
    if children.isEmpty then
      return ((has_return, x, Q.add y level_height), st)
    let base_case_y := Q.add y condition_offset_y
    let base_case_x := Q.add x condition_offset_x
    let case_spacing := Q.maxq (Q.mul condition_offset_x (q 2)) (q 150)
    let mut last_nodes : List PNode := []
    let mut max_case_y := base_case_y
    let mut st := st
    for pr in children.enum do
      let idx := pr.1
      let case_block := pr.2
      let case_x := Q.add base_case_x (Q.mul (q (Int.ofNat idx)) case_spacing)
      let (r, st1) := process_block f st case_block.childrenD case_x base_case_y
        (some current_node) "down" context_type (some statement) parent_loop_statement
      st := st1
      let case_current := r.1
      let case_return := r.2.1
      let case_end_y := r.2.2.2.1
      match case_current with
      | some cc =>
          last_nodes := last_nodes ++ [cc]
          max_case_y := Q.maxq max_case_y case_end_y
      | none => pure ()
      has_return := has_return || case_return
    if !last_nodes.isEmpty then
      let e := getExtra st statement
      st := setExtra st statement { e with switch_case_last_nodes := some last_nodes }
    return ((has_return, x, max_case_y), st)

/-- `FlowchartConverter._process_if_block`. -/
def process_if_block (fuel : Nat) (st : ConvState) (child statement : Stmt)
    (current_node : Option PNode) (x y : Q) (context_type : Option String)
    (parent_block : Option (List Stmt)) (parent_loop_statement : Option Stmt) :
    (Bool × Q) × ConvState :=
  match fuel with
  | 0 => ((false, y), st)
  | f + 1 => Id.run do
    let max_statement_chain := calculate_max_statement_chain f child
    let has_next_if_in_n_statements := check_next_if_in_n_statements f st statement
      max_statement_chain
    let condition_x_offset :=
      if has_next_if_in_n_statements then Q.mul condition_offset_x (q 2)
      else condition_offset_x
    let if_block_context_type :=
      match context_type with
      | some s => s
      | none => infer_context_type parent_block
    let final_if_context_type :=
      if if_block_context_type == "" then "if_block" else if_block_context_type
    let (r, st1) := process_block f st child.childrenD (Q.add x condition_x_offset)
      (Q.add y condition_offset_y) current_node "right" (some final_if_context_type)
      (some statement) parent_loop_statement
    let mut st := st1
    let if_current := r.1
    let if_return := r.2.1
    let if_y := r.2.2.2.1
    let ec := getExtra st child
    st := setExtra st child { ec with x_coord := some (Q.add x condition_x_offset) }
    let es := getExtra st statement
    st := setExtra st statement
      { es with if_block_info := some { last_node := if_current, has_return := if_return },
                if_block_max_y := some if_y }
    return ((if_return, if_y), st)

/-- `FlowchartConverter._process_else_block_in_statement`. -/
def process_else_block_in_statement (fuel : Nat) (st : ConvState) (child statement : Stmt)
    (current_node : Option PNode) (x y : Q) (context_type : Option String)
    (parent_block : Option (List Stmt)) (parent_loop_statement : Option Stmt) :
    (Bool × Q) × ConvState :=
  match fuel with
  | 0 => ((false, y), st)
  | f + 1 => Id.run do
    let else_block_context_type :=
      match context_type with
      | some s => s
      | none => infer_context_type parent_block
    let final_else_context_type :=
      if else_block_context_type == "" then "else_block" else else_block_context_type
    let (r, st1) := process_block f st child.childrenD
      (Q.add x (Q.mul condition_offset_x (q 2))) (Q.add y condition_offset_y)
      current_node "down" (some final_else_context_type) (some statement)
      parent_loop_statement
    let mut st := st1
    let else_current := r.1
    let else_return := r.2.1
    let else_y := r.2.2.2.1
    let ec := getExtra st child
    st := setExtra st child
      { ec with x_coord := some (Q.add x (Q.mul condition_offset_x (q 2))) }
    let es := getExtra st statement
    st := setExtra st statement
      { es with else_block_info := some { last_node := else_current, has_return := else_return },
                else_block_max_y := some else_y }
    return ((else_return, else_y), st)

/-- `FlowchartConverter._process_while_block_in_statement`. -/
def process_while_block_in_statement (fuel : Nat) (st : ConvState) (child : Stmt)
    (current_node : Option PNode) (x y : Q) (parent_statement : Option Stmt) :
    Q × ConvState :=
  match fuel with
  | 0 => (y, st)
  | f + 1 => Id.run do
    let mut st := st
    match parent_statement, current_node with
    | some ps, some cn => st := register_loop_condition_node st ps cn
    | _, _ => pure ()
    let loop_x_offset := calculate_loop_offset f child loop_offset_x true
    let (r, st1) := process_block f st child.childrenD (Q.add x loop_x_offset)
      (Q.add y loop_offset_y) current_node "down" (some "loop") parent_statement
      parent_statement
    st := st1
    let loop_current := r.1
    let loop_y := r.2.2.2.1
    -- the last node of the loop body connects right, back to the condition
    match loop_current, current_node with
    | some lc, some cn => st := add_connection st lc.id "right" cn.id "up"
    | _, _ => pure ()
    return (loop_y, st)

/-- `FlowchartConverter._process_for_block_in_statement`. -/
def process_for_block_in_statement (fuel : Nat) (st : ConvState) (child : Stmt)
    (current_node : Option PNode) (x y : Q) (parent_statement : Option Stmt) :
    Q × ConvState :=
  match fuel with
  | 0 => (y, st)
  | f + 1 => Id.run do
    let mut st := st
    match parent_statement, current_node with
    | some ps, some cn => st := register_loop_condition_node st ps cn
    | _, _ => pure ()
    let (r, st1) := process_block f st child.childrenD (Q.add x loop_offset_x)
      (Q.add y loop_offset_y) current_node "down" (some "loop") parent_statement
      parent_statement
    st := st1
    let loop_current := r.1
    let loop_y := r.2.2.2.1
    match loop_current, current_node with
    | some lc, some cn => st := add_connection st lc.id "right" cn.id "up"
    | _, _ => pure ()
    return (loop_y, st)

/-- `FlowchartConverter.process_block`. -/
def process_block (fuel : Nat) (st : ConvState) (block : List Stmt) (x y : Q)
    (parent_node : Option PNode) (connection_dir : String)
    (context_type : Option String) (parent_statement : Option Stmt)
    (parent_loop_statement0 : Option Stmt) :
    (Option PNode × Bool × Q × Q × Option PNode) × ConvState :=
  match fuel with
  | 0 => ((parent_node, false, x, y, none), st)
  | f + 1 => Id.run do
    let mut current_node := parent_node
    let mut has_return := false
    let current_x := x
    let mut current_y := y
    let mut if_block_last_node : Option PNode := none
    let mut pending_switch_case_last_nodes : List PNode := []
    -- if context_type is loop and parent_statement exists, it is the loop
    let parent_loop_statement :=
      if context_type == some "loop" && parent_statement.isSome &&
          parent_loop_statement0.isNone then
        parent_statement
      else
        parent_loop_statement0
    let mut st := st
    for pr in block.enum do
      let idx := pr.1
      let statement := pr.2
      if statement.tagD == "block" then
        continue
      let use_dir := if optNodeEq current_node parent_node then connection_dir else "down"
      let (r, st1) := process_statement f st statement current_x current_y current_node
        use_dir context_type (some block) (Int.ofNat idx) parent_loop_statement
      st := st1
      let stmt_current := r.1
      let stmt_return := r.2.1
      let stmt_y := r.2.2.2
      -- pending switch-case tails connect down to this statement
      match stmt_current with
      | some sc =>
          if !pending_switch_case_last_nodes.isEmpty then
            for last_node in pending_switch_case_last_nodes do
              if last_node.id ≠ sc.id then
                st := add_connection st last_node.id "down" sc.id "up"
            pending_switch_case_last_nodes := []
      | none => pure ()
      -- last node of an if_block-typed statement
      if statement.tyD == "if_block" && stmt_current.isSome then
        if statement.hasChildren then
          for child in statement.childrenD do
            if child.tyD ≠ "else_block" then
              let (r2, st2) := process_block f st child.childrenD
                (Q.add x condition_offset_x) (Q.add current_y condition_offset_y)
                stmt_current "down" none none parent_loop_statement
              st := st2
              match r2.1 with
              | some temp_node => if_block_last_node := some temp_node
              | none => pure ()
              break
      -- save reconnect info for if-else statements
      if statement.tagD == "condition" || statement.tagD == "branch" then
        let effective_parent :=
          match parent_loop_statement with
          | some pls => some pls
          | none => parent_statement
        st := save_if_else_reconnect_in_block f st statement stmt_current idx block
          context_type effective_parent
      current_node := stmt_current
      has_return := has_return || stmt_return
      current_y := stmt_y
      match (getExtra st statement).switch_case_last_nodes with
      | some switch_last_nodes => pending_switch_case_last_nodes := switch_last_nodes
      | none => pure ()
    return ((current_node, has_return, current_x, current_y, if_block_last_node), st)

end

/-! ## Top-level statement dispatch (`converter.py`) -/

/-- `FlowchartConverter._process_for_loop`. -/
def process_for_loop (fuel : Nat) (st : ConvState) (item : Stmt)
    (current_node0 : Option PNode) (current_y0 : Q) :
    (Option PNode × Q) × ConvState := Id.run do
  let (loop_condition_node, st0) := create_node st "decision" item.translatedD
    st.current_x current_y0
  let mut st := st0
  match current_node0 with
  | some cn => st := add_connection st cn.id "down" loop_condition_node.id "up"
  | none => pure ()
  st := register_loop_condition_node st item loop_condition_node
  let mut current_node := current_node0
  let mut current_y := current_y0
  let mut loop_body_processed := false
  if item.hasChildren then
    for child in item.childrenD do
      if child.tyD == "for_block" then
        let (r, st1) := process_block fuel st child.childrenD
          (Q.add st.current_x loop_offset_x) (Q.add current_y0 loop_offset_y)
          (some loop_condition_node) "right" (some "loop") (some item) none
        st := st1
        let body_current := r.1
        let body_return := r.2.1
        let body_y := r.2.2.2.1
        let if_block_last_node := r.2.2.2.2
        current_node := body_current
        current_y := body_y
        loop_body_processed := true
        st := add_loop_body_reconnection st body_current loop_condition_node
          body_return child if_block_last_node
  if loop_body_processed then
    current_node := some loop_condition_node
  return ((current_node, current_y), st)

/-- `FlowchartConverter._process_while_loop`. -/
def process_while_loop (fuel : Nat) (st : ConvState) (item : Stmt) (index : Nat)
    (current_node0 : Option PNode) (current_y0 : Q) (input_json : List Stmt) :
    (Option PNode × Q) × ConvState := Id.run do
  let max_statement_chain := calculate_while_statement_chain fuel item
  let inner := check_next_statements_for_conditional input_json index max_statement_chain
  let loop_x_offset := if inner then Q.mul loop_offset_x (q 2) else loop_offset_x
  let (loop_condition_node, st0) := create_node st "decision" item.translatedD
    st.current_x current_y0
  let mut st := st0
  match current_node0 with
  | some cn => st := add_connection st cn.id "down" loop_condition_node.id "up"
  | none => pure ()
  st := register_loop_condition_node st item loop_condition_node
  let mut current_node := current_node0
  let mut current_y := current_y0
  let mut loop_body_processed := false
  if item.hasChildren then
    for child in item.childrenD do
      if child.tyD == "while_true_block" || child.tyD == "while_block" then
        let (r, st1) := process_block fuel st child.childrenD
          (Q.add st.current_x loop_x_offset) (Q.add current_y0 loop_offset_y)
          (some loop_condition_node) "right" (some "loop") (some item) none
        st := st1
        let body_current := r.1
        let body_return := r.2.1
        let body_y := r.2.2.2.1
        let if_block_last_node := r.2.2.2.2
        current_node := body_current
        current_y := body_y
        loop_body_processed := true
        st := add_loop_body_reconnection st body_current loop_condition_node
          body_return child if_block_last_node
  if loop_body_processed then
    current_node := some loop_condition_node
  return ((current_node, current_y), st)

/-- `FlowchartConverter._process_loop_structure`. -/
def process_loop_structure (fuel : Nat) (st : ConvState) (item : Stmt) (index : Nat)
    (current_node : Option PNode) (current_y : Q) (input_json : List Stmt) :
    (Option PNode × Q) × ConvState :=
  let is_for := strIn "for" item.origD
  let is_while := strIn "while" (strLower item.origD)
  if is_for then
    process_for_loop fuel st item current_node current_y
  else if is_while then
    process_while_loop fuel st item index current_node current_y input_json
  else
    ((current_node, current_y), st)

/-- `FlowchartConverter._process_normal_statement`. -/
def process_normal_statement (fuel : Nat) (st : ConvState) (item : Stmt) (index : Nat)
    (current_node : Option PNode) (current_y : Q) (input_json : List Stmt) :
    (Option PNode × Q) × ConvState := Id.run do
  let (r, st1) := process_statement fuel st item st.current_x current_y current_node
    "down" none none (-1) none
  let mut st := st1
  let stmt_current := r.1
  let stmt_y := r.2.2.2
  -- record the first node of this statement (a None value in the Python dict
  -- behaves exactly like an absent key at every read site)
  match stmt_current with
  | some sc => st := register_statement_first_node st index sc
  | none => pure ()
  if item.tagD == "condition" || item.tagD == "branch" then
    st := save_if_else_reconnect_info st item stmt_current index input_json
  return ((stmt_current, stmt_y), st)

/-! ## The conversion pipeline (`FlowchartConverter.convert`), staged -/

/-- The output document of `_build_output`. -/
structure Output where
  version : String
  items : List PNode
  connections : List Conn
deriving Repr

/-- `FlowchartConverter._build_output`. -/
def build_output (st : ConvState) : Output :=
  { version := "1.0", items := st.nodes, connections := st.connections }

/-- `_reset_all` followed by `set_input_json`: the fresh state of one
conversion. -/
def reset_state (input_json : List Stmt) : ConvState :=
  { input_json := input_json }

/-- The synthesis walk of `convert`: reset, start node, the main loop over
the top-level statements, and `_create_end_node`.  This is the graph "as
produced by the synthesis walk", before any reconnection or repair pass. -/
def convert_synthesis (fuel : Nat) (input_json : List Stmt) : ConvState := Id.run do
  let init := reset_state input_json
  let (startN, st0) := create_node init "start" "开始" init.current_x init.current_y
  let withStart : ConvState :=
    { st0 with start_node := some startN, current_y := Q.add st0.current_y level_height }
  let mut st := withStart
  let mut current_node : Option PNode := some startN
  let mut current_y := st.current_y
  let mut max_y := current_y
  for pr in input_json.enum do
    let i := pr.1
    let item := pr.2
    if item.tagD == "block" then
      continue
    if is_loop_structure item then
      let (r, st1) := process_loop_structure fuel st item i current_node current_y input_json
      st := st1
      current_node := r.1
      current_y := r.2
    else
      let (r, st1) := process_normal_statement fuel st item i current_node current_y input_json
      st := st1
      current_node := r.1
      current_y := r.2
    if Q.ltb max_y current_y then
      max_y := current_y
  match current_node with
  | some cn => st := create_end_node st cn max_y
  | none => pure ()
  return st

/-- `convert` after `_process_pending_reconnects`. -/
def convert_after_reconnects (fuel : Nat) (input_json : List Stmt) : ConvState :=
  process_pending_reconnects fuel (convert_synthesis fuel input_json) input_json

/-- `convert` after `_connect_orphan_nodes_generic` (the orphan repair
pass; its `input_json` parameter is unused in the source). -/
def convert_after_orphans (fuel : Nat) (input_json : List Stmt) : ConvState :=
  connect_orphan_nodes_generic (convert_after_reconnects fuel input_json)

/-- `convert` after `_fix_obviously_wrong_connections`. -/
def convert_after_fix1 (fuel : Nat) (input_json : List Stmt) : ConvState :=
  fix_obviously_wrong_connections (convert_after_orphans fuel input_json)

/-- `convert` after `_fix_down_to_outer_layer`. -/
def convert_after_fix2 (fuel : Nat) (input_json : List Stmt) : ConvState :=
  fix_down_to_outer_layer (convert_after_fix1 fuel input_json)

/-- The final converter state, after `_process_break_statements`. -/
def convert_final_state (fuel : Nat) (input_json : List Stmt) : ConvState :=
  process_break_statements fuel (convert_after_fix2 fuel input_json) input_json

/-- `FlowchartConverter.convert`. -/
def convert (fuel : Nat) (input_json : List Stmt) : Output :=
  build_output (convert_final_state fuel input_json)

/-! ## Concrete input programs

Statement trees (as produced by the upstream classifier) for the runs used
in the theorems.  All statements are pairwise distinct in content, so the
structural equality `Stmt.beq` agrees with Python's dict equality and with
object identity on them (cf. the modelling notes at the top). -/

/-- A plain leaf statement. -/
def leaf (sid : Nat) (tag translated orig : String) : Stmt :=
  Stmt.node sid (some tag) (some translated) (some orig) none none

/-- A block child (`if_block`, `else_block`, `while_true_block`, …). -/
def blockChild (sid : Nat) (ty : String) (children : List Stmt) : Stmt :=
  Stmt.node sid none none none (some ty) (some children)

/-- A statement with a tag and children. -/
def branchStmt (sid : Nat) (tag translated orig : String) (children : List Stmt) : Stmt :=
  Stmt.node sid (some tag) (some translated) (some orig) none (some children)

/-- Scenario C of the spec: `if (x) { return 1; } else { return 2; } z;`. -/
def scenC : List Stmt :=
  [ branchStmt 1 "condition" "xq" "if (x)"
      [blockChild 2 "if_block" [leaf 3 "generic" "return 1;" "return 1;"]],
    branchStmt 4 "branch" "否则" "else"
      [blockChild 5 "else_block" [leaf 6 "generic" "return 2;" "return 2;"]],
    leaf 7 "generic" "z" "z;" ]

/-- Scenario D of the spec:
`while (w) { if (x) { for (f) { if (y) continue; } } }`. -/
def scenD : List Stmt :=
  [ branchStmt 10 "loop" "循环w" "while (w)"
      [blockChild 11 "while_true_block"
        [ branchStmt 12 "condition" "xq" "if (x)"
            [blockChild 13 "if_block"
              [ branchStmt 14 "loop" "循环f" "for (f)"
                  [blockChild 15 "for_true_block"
                    [ branchStmt 16 "condition" "yq" "if (y)"
                        [blockChild 17 "if_block"
                          [leaf 18 "generic" "continue;" "continue;"]] ]] ]] ]] ]

/-- A `continue` in the else branch of an if inside a while loop:
`while (w) { if (x) { a=1; } else { continue; } }`. -/
def elseCont : List Stmt :=
  [ branchStmt 20 "loop" "循环w" "while (w)"
      [blockChild 21 "while_true_block"
        [ branchStmt 22 "condition" "xq" "if (x)"
            [blockChild 23 "if_block" [leaf 24 "generic" "a=1" "a = 1;"]],
          branchStmt 25 "branch" "否则" "else"
            [blockChild 26 "else_block" [leaf 27 "generic" "continue;" "continue;"]] ]] ]

/-- A `continue` nested inside two loops, through an else branch:
`while (w2) { while (v) { if (x2) { b=1; } else { continue; } } }`. -/
def elseCont2 : List Stmt :=
  [ branchStmt 70 "loop" "循环w2" "while (w2)"
      [blockChild 71 "while_true_block"
        [ branchStmt 72 "loop" "循环v" "while (v)"
            [blockChild 73 "while_true_block"
              [ branchStmt 74 "condition" "x2q" "if (x2)"
                  [blockChild 75 "if_block" [leaf 76 "generic" "b=1" "b = 1;"]],
                branchStmt 77 "branch" "否则" "else"
                  [blockChild 78 "else_block"
                    [leaf 79 "generic" "continue;" "continue;"]] ]] ]] ]

/-- A `continue` nested inside two loops through an else branch, with a
statement after the if/else inside the inner loop body:
`while (w2) { while (v) { if (x2) { b=1; } else { continue; } c=2; } }`. -/
def elseCont3 : List Stmt :=
  [ branchStmt 80 "loop" "循环w2" "while (w2)"
      [blockChild 81 "while_true_block"
        [ branchStmt 82 "loop" "循环v" "while (v)"
            [blockChild 83 "while_true_block"
              [ branchStmt 84 "condition" "x2q" "if (x2)"
                  [blockChild 85 "if_block" [leaf 86 "generic" "b=1" "b = 1;"]],
                branchStmt 87 "branch" "否则" "else"
                  [blockChild 88 "else_block"
                    [leaf 89 "generic" "continue;" "continue;"]],
                leaf 90 "generic" "c=2" "c = 2;" ]] ]] ]

/-- A break in a nested loop whose following statement shares its display
text with an earlier statement:
`x=1; while (a) { while (b) { break; } x=1; }`. -/
def breakNest : List Stmt :=
  [ leaf 30 "generic" "x=1" "x = 1;",
    branchStmt 31 "loop" "循环a" "while (a)"
      [blockChild 32 "while_true_block"
        [ branchStmt 33 "loop" "循环b" "while (b)"
            [blockChild 34 "while_true_block" [leaf 35 "generic" "break;" "break;"]],
          leaf 36 "generic" "x=1" "x = 1 ;" ]] ]

/-- A `continue` with no enclosing loop, followed by a statement:
`continue; x=1;`. -/
def contTop : List Stmt :=
  [ leaf 40 "generic" "continue;" "continue;",
    leaf 41 "generic" "x=1" "x = 1;" ]

/-- A `break` with no enclosing loop, followed by a statement:
`break; x=1;`. -/
def breakTop : List Stmt :=
  [ leaf 45 "generic" "break;" "break;",
    leaf 46 "generic" "x=1" "x = 1;" ]

/-- A for loop with an empty body: `for (i) { }`. -/
def forEmpty : List Stmt :=
  [ branchStmt 50 "loop" "循环i" "for (i)" [blockChild 51 "for_block" []] ]

/-- A while loop (display text without loop keywords) containing an if, then
a following statement: `while (w) { if (x) { a=1; } } c=1;`. -/
def fixTrig : List Stmt :=
  [ branchStmt 55 "loop" "loopw" "while (w)"
      [blockChild 56 "while_true_block"
        [ branchStmt 57 "condition" "xq" "if (x)"
            [blockChild 58 "if_block" [leaf 59 "generic" "a=1" "a = 1;"]] ]],
    leaf 60 "generic" "c=1" "c = 1;" ]

/-- A flow-graph store state in which node `f` already has an outgoing
connection on its `down` port (to `t1`), used for the duplicate-port
behaviour of `add_connection`. -/
def dupPortState : ConvState :=
  { nodes := [ { id := "f", ntype := "process", x := q 0, y := q 0,
                 width := q 125, height := q 75, text := "f" },
               { id := "t1", ntype := "process", x := q 0, y := q 125,
                 width := q 125, height := q 75, text := "t1" },
               { id := "t2", ntype := "process", x := q 200, y := q 125,
                 width := q 125, height := q 75, text := "t2" } ],
    node_counter := 3,
    connections := [ { start_item_id := "f", start_point_type := "down",
                       end_item_id := "t1", end_point_type := "up", label := none } ] }

/-- The fuel used in every concrete run: it exceeds every recursion depth
occurring in these inputs by a wide margin, so each fueled function takes
exactly the same branches as its unbounded Python original. -/
def runFuel : Nat := 64

/-! ## Groundwork for node-id uniqueness (C10)

`get_unique_id` produces `base` for counter 0 and `base ++ "_" ++ repr c`
afterwards, where `base` is one of five fixed strings without underscores
and `repr c` is the decimal representation of the counter.  We prove these
ids pairwise distinct. -/

/-- The numeric value of a decimal digit character. -/
def digitVal (c : Char) : Nat := c.toNat - '0'.toNat

/-- Parse a most-significant-first digit list. -/
def parseDigits (s : List Char) : Nat := s.foldl (fun acc c => acc * 10 + digitVal c) 0

theorem digitVal_digitChar : ∀ m < 10, digitVal (Nat.digitChar m) = m := by decide

theorem digitChar_ne_underscore : ∀ m < 10, Nat.digitChar m ≠ '_' := by decide

theorem toDigitsCore_append (b : Nat) :
    ∀ (fuel n : Nat) (ds : List Char),
      Nat.toDigitsCore b fuel n ds = Nat.toDigitsCore b fuel n [] ++ ds := by
  intro fuel
  induction fuel with
  | zero => intro n ds; simp [Nat.toDigitsCore]
  | succ f ih =>
      intro n ds
      simp only [Nat.toDigitsCore]
      by_cases h : n / b = 0
      · simp [h]
      · simp only [h, if_false]
        rw [ih (n / b) (Nat.digitChar (n % b) :: ds), ih (n / b) [Nat.digitChar (n % b)]]
        simp

theorem underscore_not_mem_toDigitsCore :
    ∀ (fuel n : Nat) (ds : List Char), '_' ∉ ds → '_' ∉ Nat.toDigitsCore 10 fuel n ds := by
  intro fuel
  induction fuel with
  | zero => intro n ds hds; simpa [Nat.toDigitsCore] using hds
  | succ f ih =>
      intro n ds hds
      simp only [Nat.toDigitsCore]
      have hd : Nat.digitChar (n % 10) ≠ '_' :=
        digitChar_ne_underscore (n % 10) (Nat.mod_lt _ (by norm_num))
      by_cases h : n / 10 = 0
      · simp only [h, if_pos rfl]
        intro hmem
        rcases List.mem_cons.mp hmem with h1 | h1
        · exact hd h1.symm
        · exact hds h1
      · simp only [h, if_false]
        refine ih (n / 10) (Nat.digitChar (n % 10) :: ds) ?_
        intro hmem
        rcases List.mem_cons.mp hmem with h1 | h1
        · exact hd h1.symm
        · exact hds h1

theorem parse_toDigitsCore :
    ∀ (fuel n : Nat), n < fuel → parseDigits (Nat.toDigitsCore 10 fuel n []) = n := by
  intro fuel
  induction fuel with
  | zero => intro n hn; omega
  | succ f ih =>
      intro n hn
      simp only [Nat.toDigitsCore]
      have hmod : n % 10 < 10 := Nat.mod_lt _ (by norm_num)
      by_cases h : n / 10 = 0
      · have hlt : n < 10 := by omega
        simp only [h, if_pos rfl, parseDigits, List.foldl]
        rw [digitVal_digitChar (n % 10) hmod]
        omega
      · simp only [h, if_false]
        rw [toDigitsCore_append 10 f (n / 10) [Nat.digitChar (n % 10)]]
        have hdivlt : n / 10 < f := by omega
        have := ih (n / 10) hdivlt
        simp only [parseDigits, List.foldl_append, List.foldl] at this ⊢
        rw [this, digitVal_digitChar (n % 10) hmod]
        omega

theorem repr_no_underscore (n : Nat) : '_' ∉ (Nat.repr n).data := by
  show '_' ∉ (List.asString (Nat.toDigits 10 n)).data
  have : (List.asString (Nat.toDigits 10 n)).data = Nat.toDigits 10 n := rfl
  rw [this]
  exact underscore_not_mem_toDigitsCore (n + 1) n [] (by simp)

theorem repr_inj (n m : Nat) (h : Nat.repr n = Nat.repr m) : n = m := by
  have hd : Nat.toDigits 10 n = Nat.toDigits 10 m := congrArg String.data h
  have hn := parse_toDigitsCore (n + 1) n (Nat.lt_succ_self n)
  have hm := parse_toDigitsCore (m + 1) m (Nat.lt_succ_self m)
  show n = m
  rw [← hn, ← hm]
  show parseDigits (Nat.toDigits 10 n) = parseDigits (Nat.toDigits 10 m)
  rw [hd]

theorem append_sep_inj (c : Char) :
    ∀ (xs zs ys ws : List Char), c ∉ xs → c ∉ zs →
      xs ++ c :: ys = zs ++ c :: ws → xs = zs ∧ ys = ws := by
  intro xs
  induction xs with
  | nil =>
      intro zs ys ws _ hz h
      cases zs with
      | nil => simpa using h
      | cons z zs1 =>
          simp only [List.nil_append, List.cons_append, List.cons.injEq] at h
          exact absurd (h.1 ▸ List.mem_cons_self z zs1) hz
  | cons a xs1 ih =>
      intro zs ys ws hx hz h
      cases zs with
      | nil =>
          simp only [List.cons_append, List.nil_append, List.cons.injEq] at h
          exact absurd (h.1.symm ▸ List.mem_cons_self a xs1) hx
      | cons z zs1 =>
          simp only [List.cons_append, List.cons.injEq] at h
          have hx1 : c ∉ xs1 := fun hm => hx (List.mem_cons_of_mem a hm)
          have hz1 : c ∉ zs1 := fun hm => hz (List.mem_cons_of_mem z hm)
          rcases ih zs1 ys ws hx1 hz1 h.2 with ⟨h1, h2⟩
          exact ⟨by rw [h.1, h1], h2⟩

theorem managerIds_no_underscore (t : String) : '_' ∉ (managerIds t).data := by
  unfold managerIds
  split_ifs <;> decide

/-- The id produced when the counter is `n`. -/
def uid (t : String) (n : Nat) : String :=
  if n = 0 then managerIds t else managerIds t ++ "_" ++ Nat.repr n

theorem uid_inj (t1 t2 : String) (n1 n2 : Nat) (h : uid t1 n1 = uid t2 n2) : n1 = n2 := by
  unfold uid at h
  by_cases h1 : n1 = 0 <;> by_cases h2 : n2 = 0
  · omega
  · rw [if_pos h1, if_neg h2] at h
    have hdata := congrArg String.data h
    simp only [String.data_append] at hdata
    have : '_' ∈ (managerIds t1).data := by
      rw [hdata]
      refine List.mem_append.mpr (Or.inl ?_)
      refine List.mem_append.mpr (Or.inr ?_)
      decide
    exact absurd this (managerIds_no_underscore t1)
  · rw [if_neg h1, if_pos h2] at h
    have hdata := congrArg String.data h
    simp only [String.data_append] at hdata
    have : '_' ∈ (managerIds t2).data := by
      rw [← hdata]
      refine List.mem_append.mpr (Or.inl ?_)
      refine List.mem_append.mpr (Or.inr ?_)
      decide
    exact absurd this (managerIds_no_underscore t2)
  · rw [if_neg h1, if_neg h2] at h
    have hdata := congrArg String.data h
    simp only [String.data_append] at hdata
    simp only [List.append_assoc, List.singleton_append] at hdata
    rcases append_sep_inj '_' (managerIds t1).data (managerIds t2).data
        (Nat.repr n1).data (Nat.repr n2).data (managerIds_no_underscore t1)
        (managerIds_no_underscore t2) hdata with ⟨_, hrepr⟩
    have : Nat.repr n1 = Nat.repr n2 := by
      cases hrn : Nat.repr n1 with
      | mk d1 =>
          cases hrm : Nat.repr n2 with
          | mk d2 =>
              rw [hrn, hrm] at hrepr
              simpa using congrArg String.mk hrepr
    exact repr_inj n1 n2 this

theorem get_unique_id_spec (st : ConvState) (t : String) :
    get_unique_id st t = (uid t st.node_counter, { st with node_counter := st.node_counter + 1 }) := by
  unfold get_unique_id uid
  by_cases h : st.node_counter = 0
  · simp [h]
  · simp [h]

/-- The node created when the requested id is fresh. -/
def freshNode (t text : String) (x y : Q) (c : Nat) : PNode :=
  { id := uid t c, ntype := t, x := x, y := y, width := q 125, height := q 75, text := text }

theorem create_node_spec (st : ConvState) (t text : String) (x y : Q)
    (hfresh : ∀ node ∈ st.nodes, node.id ≠ uid t st.node_counter) :
    create_node st t text x y =
      (freshNode t text x y st.node_counter,
        { st with nodes := st.nodes ++ [freshNode t text x y st.node_counter],
                  node_counter := st.node_counter + 1 }) := by
  unfold create_node
  rw [get_unique_id_spec]
  have hnone : ({ st with node_counter := st.node_counter + 1 } : ConvState).nodes.find?
      (fun n => n.id == uid t st.node_counter) = none := by
    rw [List.find?_eq_none]
    intro x1 hx1
    simpa using hfresh x1 hx1
  simp only [Id.run]
  rw [hnone]
  rfl

/-- The invariant carried through a run of `create_node` calls. -/
def NodesOk (st : ConvState) : Prop :=
  (∀ node ∈ st.nodes, ∃ t n, n < st.node_counter ∧ node.id = uid t n) ∧
  List.Pairwise (fun a b : PNode => a.id ≠ b.id) st.nodes

theorem create_node_ok (st : ConvState) (t text : String) (x y : Q)
    (h : NodesOk st) : NodesOk (create_node st t text x y).2 := by
  rcases h with ⟨hbound, hpair⟩
  have hfresh : ∀ node ∈ st.nodes, node.id ≠ uid t st.node_counter := by
    intro node hn heq
    rcases hbound node hn with ⟨t1, n1, hn1, hid⟩
    have := uid_inj t1 t n1 st.node_counter (hid ▸ heq)
    omega
  have h2 : (create_node st t text x y).2.nodes =
      st.nodes ++ [freshNode t text x y st.node_counter] := by
    rw [create_node_spec st t text x y hfresh]
  have h3 : (create_node st t text x y).2.node_counter = st.node_counter + 1 := by
    rw [create_node_spec st t text x y hfresh]
  constructor
  · intro node hn
    rw [h2] at hn
    rw [h3]
    rcases List.mem_append.mp hn with hmem | hmem
    · rcases hbound node hmem with ⟨t1, n1, hn1, hid⟩
      exact ⟨t1, n1, by omega, hid⟩
    · rcases List.mem_singleton.mp hmem with rfl
      exact ⟨t, st.node_counter, by omega, rfl⟩
  · rw [h2, List.pairwise_append]
    refine ⟨hpair, List.pairwise_singleton _ _, ?_⟩
    intro a ha b hb
    rcases List.mem_singleton.mp hb with rfl
    exact hfresh a ha

/-- A run of `create_node` calls (one conversion between resets). -/
def create_nodes (st : ConvState) : List (String × String × Q × Q) → ConvState
  | [] => st
  | r :: rest => create_nodes (create_node st r.1 r.2.1 r.2.2.1 r.2.2.2).2 rest

theorem create_nodes_ok (reqs : List (String × String × Q × Q)) :
    ∀ st : ConvState, NodesOk st → NodesOk (create_nodes st reqs) := by
  induction reqs with
  | nil => intro st h; exact h
  | cons r rest ih =>
      intro st h
      exact ih _ (create_node_ok st r.1 r.2.1 r.2.2.1 r.2.2.2 h)

/-! ## The claims

Concrete-run statements are proved by kernel evaluation of the embedded
pipeline on the inputs above.  Smart unfolding is switched off in this
section: the definitional reduction of the deeply nested processing
functions is far cheaper without it, and the kernel never uses it anyway. -/

section
set_option smartUnfolding false

/-- Claim C2 is false as stated: in Scenario C
(if (x) with return in both branches, followed by z) the statement z after
the both-divergent if is not omitted from the returned graph.  The graph
returned by convert contains a node for z, and that node receives an
incoming connection. -/
theorem C2_counterexample :
    (let o := convert runFuel scenC
     o.items.any (fun n => n.text == "z" &&
       o.connections.any (fun c => c.end_item_id == n.id))) = true := by rfl

/-- Claim C2, amended: statements after a both-divergent if are still
materialised.  In Scenario C the statement z produces a process node whose
single incoming connection comes from an end-type node (the End node
created for the return in the else branch), and z has no outgoing
connections; this connection is already present in the graph produced by
the synthesis walk. -/
theorem C2_amended :
    ((let o := convert runFuel scenC
      o.items.any (fun n => n.text == "z" &&
        (o.connections.filter (fun c => c.end_item_id == n.id)).length == 1 &&
        (o.connections.filter (fun c => c.end_item_id == n.id)).all (fun c =>
          o.items.any (fun m => m.id == c.start_item_id && m.ntype == "end")) &&
        o.connections.all (fun c => c.start_item_id != n.id))) &&
     (let s := convert_synthesis runFuel scenC
      s.nodes.any (fun n => n.text == "z" &&
        s.connections.any (fun c => c.end_item_id == n.id &&
          s.nodes.any (fun m => m.id == c.start_item_id && m.ntype == "end"))))) =
    true := by rfl

/-- Claim C3 is false as stated: in elseCont3 the continue statement is
nested inside two loops (through an if/else), yet the single outgoing
connection of its node goes to the process node of the textually next
statement c=2, not to the condition node of the innermost enclosing
loop. -/
theorem C3_counterexample :
    (let o := convert runFuel elseCont3
     o.items.any (fun n => n.text == "continue;" &&
       (o.connections.filter (fun c => c.start_item_id == n.id)).length == 1 &&
       (o.connections.filter (fun c => c.start_item_id == n.id)).all (fun c =>
         o.items.any (fun m => m.id == c.end_item_id && m.text == "c=2" &&
           m.ntype == "process")))) = true := by rfl

/-- Claim C3, amended: a continue processed while the enclosing-loop
reference is intact does edge to the innermost loop condition (Scenario D:
the continue inside if (y) edges to the for-loop decision and only there);
but a continue inside an else branch loses that reference, because the
else walk passes no parent loop, and either falls through to the next
statement of the loop body (elseCont3) or keeps no outgoing edge at all
(elseCont). -/
theorem C3_amended :
    ((let d := convert runFuel scenD
      d.items.any (fun n => n.text == "continue;" &&
        (d.connections.filter (fun c => c.start_item_id == n.id)).length == 1 &&
        (d.connections.filter (fun c => c.start_item_id == n.id)).all (fun c =>
          d.items.any (fun m => m.id == c.end_item_id && m.text == "循环f")))) &&
     (let o := convert runFuel elseCont3
      o.items.any (fun n => n.text == "continue;" &&
        (o.connections.filter (fun c => c.start_item_id == n.id)).length == 1 &&
        (o.connections.filter (fun c => c.start_item_id == n.id)).all (fun c =>
          o.items.any (fun m => m.id == c.end_item_id && m.text == "c=2")))) &&
     (let e := convert runFuel elseCont
      e.items.any (fun n => n.text == "continue;" &&
        e.connections.all (fun c => c.start_item_id != n.id)))) = true := by rfl

/-- Claim C4 is false as stated: in breakNest the break node has no
connection to the loop continuation (the node that receives the
false-labelled exit edge of the innermost loop condition 循环b); instead it
keeps an edge back to 循环b itself and an edge to a node with the same
display text x=1 that directly follows the Start node, so it precedes the
loop rather than following it. -/
theorem C4_counterexample :
    (let o := convert runFuel breakNest
     o.items.any (fun bn => bn.text == "break;" &&
       o.items.any (fun lb => lb.text == "循环b" &&
         o.connections.any (fun fc => fc.start_item_id == lb.id &&
           fc.label == some "否" &&
           o.connections.all (fun c =>
             !(c.start_item_id == bn.id && c.end_item_id == fc.end_item_id)) &&
           o.connections.any (fun c =>
             c.start_item_id == bn.id && c.end_item_id == lb.id) &&
           o.connections.any (fun c => c.start_item_id == bn.id &&
             o.items.any (fun m => m.id == c.end_item_id && m.text == "x=1" &&
               o.connections.any (fun sc => sc.end_item_id == m.id &&
                 o.items.any (fun s =>
                   s.ntype == "start" && s.id == sc.start_item_id)))))))) =
    true := by rfl

/-- Claim C4, amended: the break node is not divergent and its target is
resolved by display text, not by position.  In breakNest it has exactly
two outgoing connections: a right edge back to the innermost loop
condition 循环b, and a left edge to the first node whose text matches the
following statement, which is the unrelated top-level x=1 directly after
Start. -/
theorem C4_amended :
    (let o := convert runFuel breakNest
     o.items.any (fun bn => bn.text == "break;" &&
       (o.connections.filter (fun c => c.start_item_id == bn.id)).length == 2 &&
       o.connections.any (fun c => c.start_item_id == bn.id &&
         c.start_point_type == "right" &&
         o.items.any (fun m => m.id == c.end_item_id && m.text == "循环b")) &&
       o.connections.any (fun c => c.start_item_id == bn.id &&
         c.start_point_type == "left" &&
         o.items.any (fun m => m.id == c.end_item_id && m.text == "x=1" &&
           o.connections.any (fun sc => sc.end_item_id == m.id &&
             o.items.any (fun s =>
               s.ntype == "start" && s.id == sc.start_item_id)))))) = true := by rfl

/-- Claim C5 is false as stated: adding a connection from f on port down
while an edge from f on down already exists records a second connection on
the same port and signals nothing; afterwards two connections leave f on
down. -/
theorem C5_counterexample :
    ((add_connection dupPortState "f" "down" "t2" "up" none).connections.filter
      (fun c => c.start_item_id == "f" && c.start_point_type == "down")).length =
    2 := by rfl

/-- Claim C5, amended: add_connection rejects only self connections, a
start node carrying the end text, and exact duplicates (same endpoints and
same ports); whenever none of these applies the new connection is appended
even if the from node already uses the same port, with the label defaulted
for decision sources. -/
theorem C5_amended (st : ConvState) (a p b e : String) (lbl : Option String)
    (h1 : (a == b) = false)
    (h2 : st.connections.any (fun c =>
      c.start_item_id == a && c.start_point_type == p &&
      c.end_item_id == b && c.end_point_type == e) = false)
    (h3 : ∀ sn, get_node_by_id st a = some sn →
      (sn.ntype == "start" && sn.text == "结束") = false) :
    ∃ l, (add_connection st a p b e lbl).connections = st.connections ++
      [{ start_item_id := a, start_point_type := p, end_item_id := b,
         end_point_type := e, label := l }] := by
  unfold add_connection
  cases hsn : get_node_by_id st a with
  | none => simp [Id.run, h1, h2, hsn]
  | some sn =>
      have h4 := h3 sn hsn
      simp [Id.run, h1, h2, hsn, h4]

/-- Witness for C5_amended at the duplicate-port store: the second
connection on port down of f is appended. -/
theorem C5_amended_witness :
    ∃ l, (add_connection dupPortState "f" "down" "t2" "up" none).connections =
      dupPortState.connections ++
      [{ start_item_id := "f", start_point_type := "down", end_item_id := "t2",
         end_point_type := "up", label := l }] :=
  C5_amended dupPortState "f" "down" "t2" "up" none (by decide) (by rfl)
    (fun sn h => by
      have : sn = { id := "f", ntype := "process", x := q 0, y := q 0,
                    width := q 125, height := q 75, text := "f" } :=
        (by simpa [get_node_by_id, dupPortState] using h : _ = sn).symm
      simp [this])

/-- Claim C6 is false as stated: for a top-level continue with no
enclosing loop (contTop) the conversion does return a graph, but no edge
to the graph End is synthesized for the continue node; its single outgoing
connection goes to the node of the next statement x=1, and none of its
outgoing connections targets an end-type node. -/
theorem C6_counterexample :
    (let o := convert runFuel contTop
     o.items.any (fun n => n.text == "continue;" &&
       (o.connections.filter (fun c => c.start_item_id == n.id)).length == 1 &&
       (o.connections.filter (fun c => c.start_item_id == n.id)).all (fun c =>
         o.items.any (fun m => m.id == c.end_item_id && m.ntype == "process" &&
           m.text == "x=1")) &&
       o.connections.all (fun c => !(c.start_item_id == n.id &&
         o.items.any (fun m => m.id == c.end_item_id && m.ntype == "end"))))) =
    true := by rfl

/-- Claim C6, amended: conversion indeed never fails on a loopless break
or continue, but only the break receives an End edge.  A top-level break
(breakTop) gets both a fall-through edge to the next statement and an edge
to the End node; a top-level continue (contTop) gets only the fall-through
edge and no End edge. -/
theorem C6_amended :
    ((let b := convert runFuel breakTop
      b.items.any (fun n => n.text == "break;" &&
        (b.connections.filter (fun c => c.start_item_id == n.id)).length == 2 &&
        b.connections.any (fun c => c.start_item_id == n.id &&
          b.items.any (fun m => m.id == c.end_item_id && m.ntype == "end")) &&
        b.connections.any (fun c => c.start_item_id == n.id &&
          b.items.any (fun m => m.id == c.end_item_id && m.text == "x=1")))) &&
     (let o := convert runFuel contTop
      o.items.any (fun n => n.text == "continue;" &&
        (o.connections.filter (fun c => c.start_item_id == n.id)).length == 1 &&
        (o.connections.filter (fun c => c.start_item_id == n.id)).all (fun c =>
          o.items.any (fun m => m.id == c.end_item_id && m.text == "x=1")) &&
        o.connections.all (fun c => !(c.start_item_id == n.id &&
          o.items.any (fun m => m.id == c.end_item_id && m.ntype == "end")))))) =
    true := by rfl

/-- Claim C7 is false as stated: during the conversion of fixTrig the
obviously-wrong-connection repair pass removes a previously added edge:
some connection present after the orphan pass is gone from the connection
list after that repair pass, both being stages of the same convert run. -/
theorem C7_counterexample :
    (let pre := convert_after_orphans runFuel fixTrig
     let post := convert_after_fix1 runFuel fixTrig
     pre.connections.any (fun c => post.connections.all (fun d => !(c == d)))) =
    true := by rfl

/-- Claim C7, amended: during a conversion the node set is append-only
(on fixTrig it is unchanged by every stage after synthesis, and nothing is
ever removed from it), and every synthesis edge survives to the orphan
stage, but the edge set is not append-only: the
obviously-wrong-connection repair pass removes an edge and substitutes a
rerouted one. -/
theorem C7_amended :
    (let pre := convert_after_orphans runFuel fixTrig
     let post := convert_after_fix1 runFuel fixTrig
     let fin := convert_final_state runFuel fixTrig
     (pre.nodes == post.nodes) && (fin.nodes == pre.nodes) &&
     pre.connections.any (fun c => post.connections.all (fun d => !(c == d))) &&
     (convert_synthesis runFuel fixTrig).connections.all (fun c =>
       pre.connections.contains c)) = true := by rfl

/-- Claim C8 is false as stated: for the empty-body loop forEmpty the
returned graph has no self-loop at all on the loop decision node 循环i; its
single outgoing connection is the false-labelled down edge into the End
node, and no connection of the graph is a self connection of that node. -/
theorem C8_counterexample :
    (let o := convert runFuel forEmpty
     o.items.any (fun n => n.text == "循环i" && n.ntype == "decision" &&
       o.connections.all (fun c =>
         !(c.start_item_id == n.id && c.end_item_id == n.id)) &&
       (o.connections.filter (fun c => c.start_item_id == n.id)).length == 1 &&
       (o.connections.filter (fun c => c.start_item_id == n.id)).all (fun c =>
         c.start_point_type == "down" && c.label == some "否" &&
         o.items.any (fun m => m.id == c.end_item_id && m.ntype == "end")))) =
    true := by rfl

/-- Claim C8, amended: self connections are never recorded, add_connection
returns the store unchanged whenever source and target coincide, so an
empty loop body yields no True edge at all; concretely forEmpty keeps only
the false exit of 循环i into End. -/
theorem C8_amended :
    (∀ (st : ConvState) (a p e : String) (lbl : Option String),
      add_connection st a p a e lbl = st) ∧
    ((let o := convert runFuel forEmpty
      o.items.any (fun n => n.text == "循环i" &&
        o.connections.all (fun c =>
          !(c.start_item_id == n.id && c.end_item_id == n.id)) &&
        (o.connections.filter (fun c => c.start_item_id == n.id)).length == 1)) =
     true) := by
  constructor
  · intro st a p e lbl
    unfold add_connection
    simp [Id.run]
  · rfl

/-- Claim C9 is false as stated: the conversion writes into the input
statement records.  After converting breakTop the bookkeeping entry of the
break statement (the model of the keys the converter assigns into the
statement dicts) has is_break set, where a fresh record would not. -/
theorem C9_counterexample :
    (getExtra (convert_final_state runFuel breakTop)
      (leaf 45 "generic" "break;" "break;")).is_break = true := by rfl

/-- Claim C9, amended: the conversion treats the pre-existing fields of
the statement tree as read-only but mutates the records themselves by
adding bookkeeping keys: after converting breakTop the break statement
carries is_break and a break node, and after converting Scenario C the if
statement carries the recorded if-block info. -/
theorem C9_amended :
    ((getExtra (convert_final_state runFuel breakTop)
       (leaf 45 "generic" "break;" "break;")).break_node.isSome = true) ∧
    ((getExtra (convert_final_state runFuel scenC)
       (branchStmt 1 "condition" "xq" "if (x)"
         [blockChild 2 "if_block"
           [leaf 3 "generic" "return 1;" "return 1;"]])).if_block_info.isSome =
     true) := ⟨by rfl, by rfl⟩

/-- Claim C10: within a single conversion (between resets) every
create_node call returns a node whose id differs from the id of every node
created earlier, so after any sequence of create_node requests starting
from the reset state the node ids are pairwise distinct. -/
theorem C10_spec (reqs : List (String × String × Q × Q)) :
    List.Pairwise (fun a b : PNode => a.id ≠ b.id)
      (create_nodes (reset_state []) reqs).nodes := by
  have h0 : NodesOk (reset_state []) := by
    constructor
    · intro node hn
      simp [reset_state] at hn
    · simp [reset_state]
  exact (create_nodes_ok reqs (reset_state []) h0).2

end
